import Mathlib

/-!
Verification of the aiomusiccast state-synchronization core.

This file gives a shallow embedding, in Lean 4, of the parts of the
`aiomusiccast` library that the specification talks about:

* the value object `RangeStep` and its `check` method
  (`musiccast_data.py`),
* the mutable device snapshot `MusicCastData` / `MusicCastZoneData`
  (`musiccast_data.py`),
* the synchronization engine of `MusicCastDevice`
  (`musiccast_device.py`): `handle`, `fetch`, the `_fetch_*` helpers,
  `_update_input`, `wait_for_data_update`, `check_group_data`, and the
  group protocol `mc_server_group_extend`,
* the capability setters (`capabilities.py`): `OptionSetter.set` and
  `Scene.activate`.

Modelling conventions:

* Python `int` becomes `Int`; Python `%` on integers agrees with
  `Int.emod` whenever the divisor is positive, which is the only case
  exercised (the spec requires `step >= 1`).
* Fallible code runs in a small state-and-error monad `M`; the monad
  keeps the state on errors, the way a Python exception leaves the
  already-performed attribute assignments in place.
* Network traffic is modelled by an environment `Env` holding the
  decoded JSON response for every request the engine can issue, and by
  an effect log recording each request as it is issued.  A JSON
  `dict.get(key, default)` is modelled by a field that is either an
  `Option` (when presence matters to control flow) or a plain field
  whose Lean default is the Python default.
* Registered callbacks are identified by `Nat` tokens; the environment
  decides which group callbacks raise.  Invoking a callback is recorded
  in the effect log together with the value of the
  `group_reduce_by_source` flag that the callback observes.
* `asyncio` time is modelled cooperatively: one `Effect.sleep` entry
  per `asyncio.sleep(0.1)`, and the 1-second `asyncio.wait_for` bound
  of `check_group_data` becomes a polling budget of 10 ticks.
-/

namespace AioMusiccast

/-! ## Constants (`const.py`) -/

def MC_LINK : String := "mc_link"

def MAIN_SYNC : String := "main_sync"

def MC_LINK_SOURCES : List String := [MC_LINK, MAIN_SYNC]

def NULL_GROUP : String := "00000000000000000000000000000000"

def ALARM_ONEDAY : String := "oneday"

def ALARM_WEEKLY : String := "weekly"

def ALARM_WEEK_DAYS : List String :=
  ["sunday", "monday", "tuesday", "wednesday", "thursday", "friday", "saturday"]

/-! ## Errors

Python exceptions raised by the embedded code.  The group exception
carries the data that `musiccast_device.py` interpolates into the
message string (`self.ip + ": Failed to extent group by clients " +
str(client_ips)`), so that "names the clients" is directly visible. -/

inductive Err where
  /-- `TypeError` (iterating over `None`). -/
  | typeError : Err
  /-- `KeyError` on a zone lookup. -/
  | keyError (zone_id : String) : Err
  /-- `StopIteration` from `next(...)` on an exhausted generator. -/
  | stopIteration : Err
  /-- `MusicCastException` raised by `RangeStep.check`; carries the
  interpolated message arguments `(value, minimum, maximum, step)`. -/
  | outOfRange (value minimum maximum step : Int) : Err
  /-- An exception escaping a registered group-update callback. -/
  | cbError (cb : Nat) : Err
  /-- `MusicCastGroupException` from `mc_server_group_extend`; carries
  `self.ip` and `client_ips`. -/
  | groupExtendFailed (ip : String) (client_ips : List String) : Err
  deriving DecidableEq, Repr

/-! ## `RangeStep` and `Dimmer` (`musiccast_data.py`) -/

structure RangeStep where
  minimum : Int := 0
  maximum : Int := 0
  step : Int := 1
  deriving DecidableEq, Repr

/-- `RangeStep.check` (`musiccast_data.py`):

```python
def check(self, value: int) -> None:
    if value > self.maximum or value < self.minimum or value % self.step:
        raise MusicCastException(
            "Given value %s is not in range of %s to %s with step %s",
            value, self.minimum, self.maximum, self.step)
```

The guard `value % self.step` is truthy exactly when the remainder is
non-zero; for a positive `step`, Python `%` and `Int.emod` coincide. -/
def RangeStep.check (r : RangeStep) (value : Int) : Except Err Unit :=
  if value > r.maximum ∨ value < r.minimum ∨ value % r.step ≠ 0 then
    .error (.outOfRange value r.minimum r.maximum r.step)
  else
    .ok ()

/-- `Dimmer` (`musiccast_data.py`): the one `RangeStep` subtype with a
mutable observed value. -/
structure Dimmer extends RangeStep where
  dimmer_current : Int
  deriving DecidableEq, Repr

/-! ## Feature flags (`features.py`, `const.py`)

The Python `Flag` bitsets become lists of distinct flags; `|=` is
modelled by `addFlag` (insert if missing) and `in` by `List.contains`. -/

inductive DeviceFeature where
  | WIRED_LAN | WIRELESS_LAN | WIRELESS_DIRECT | EXTEND_1_BAND | DFS_OPTION
  | NETWORK_STANDBY | NETWORK_STANDBY_AUTO | BLUETOOTH_STANDBY
  | BLUETOOTH_TX_SETTING | BLUETOOTH_TX_CONNECTIVITY_TYPE | IR_SENSOR
  | SPEAKER_A | SPEAKER_B | HEADPHONE | DIMMER | ZONE_B_VOLUME_SYNC
  | HDMI_OUT_1 | HDMI_OUT_2 | HDMI_OUT_3 | AIRPLAY | STEREO_PAIR
  | SPEAKER_SETTINGS | DISKLAVIER_SETTINGS | BACKGROUND_DOWNLOAD
  | REMOTE_INFO | NETWORK_REBOOT | SYSTEM_REBOOT | AUTO_PLAY
  | SPEAKER_PATTERN | PARTY_MODE | AUTO_POWER_STANDBY | ANALYTICS
  | YPAO_VOLUME | PARTY_VOLUME | PARTY_MUTE | NAME_TEXT_AVR
  | HDMI_STANDBY_THROUGH | CLOCK | ALARM_ONEDAY | ALARM_WEEKLY
  deriving DecidableEq, Repr

inductive ZoneFeature where
  | POWER | SLEEP | VOLUME | MUTE | SOUND_PROGRAM | SURROUND_3D | DIRECT
  | PURE_DIRECT | ENHANCER | TONE_CONTROL | EQUALIZER | BALANCE
  | DIALOGUE_LEVEL | DIALOGUE_LIFT | CLEAR_VOICE | SUBWOOFER_VOLUME
  | BASS_EXTENSION | SIGNAL_INFO | PREPARE_INPUT_CHANGE | LINK_CONTROL
  | LINK_AUDIO_DELAY | LINK_AUDIO_QUALITY | SCENE | CONTENTS_DISPLAY
  | CURSOR | MENU | ACTUAL_VOLUME | AUDIO_SELECT | SURR_DECODER_TYPE
  | EXTRA_BASS | ADAPTIVE_DRC | DTS_DIALOGUE_CONTROL | ADAPTIVE_DSP_LEVEL
  | MONO
  deriving DecidableEq, Repr

/-- `flags |= bit` on a `Flag` bitset. -/
def addFlag {α : Type} [DecidableEq α] (flags : List α) (bit : α) : List α :=
  if flags.contains bit then flags else flags ++ [bit]

/-- `DEVICE_FUNC_LIST_TO_FEATURE_MAPPING.get(feature)` (`const.py`). -/
def DEVICE_FUNC_LIST_TO_FEATURE_MAPPING : String → Option DeviceFeature
  | "wired_lan" => some .WIRED_LAN
  | "wireless_lan" => some .WIRELESS_LAN
  | "wireless_direct" => some .WIRELESS_DIRECT
  | "extend_1_band" => some .EXTEND_1_BAND
  | "dfs_option" => some .DFS_OPTION
  | "network_standby" => some .NETWORK_STANDBY
  | "network_standby_auto" => some .NETWORK_STANDBY_AUTO
  | "bluetooth_standby" => some .BLUETOOTH_STANDBY
  | "bluetooth_tx_setting" => some .BLUETOOTH_TX_SETTING
  | "bluetooth_tx_connectivity_type" => some .BLUETOOTH_TX_CONNECTIVITY_TYPE
  | "auto_power_standby" => some .AUTO_POWER_STANDBY
  | "ir_sensor" => some .IR_SENSOR
  | "speaker_a" => some .SPEAKER_A
  | "speaker_b" => some .SPEAKER_B
  | "headphone" => some .HEADPHONE
  | "dimmer" => some .DIMMER
  | "zone_b_volume_sync" => some .ZONE_B_VOLUME_SYNC
  | "hdmi_out_1" => some .HDMI_OUT_1
  | "hdmi_out_2" => some .HDMI_OUT_2
  | "hdmi_out_3" => some .HDMI_OUT_3
  | "airplay" => some .AIRPLAY
  | "stereo_pair" => some .STEREO_PAIR
  | "speaker_settings" => some .SPEAKER_SETTINGS
  | "disklavier_settings" => some .DISKLAVIER_SETTINGS
  | "background_download" => some .BACKGROUND_DOWNLOAD
  | "remote_info" => some .REMOTE_INFO
  | "network_reboot" => some .NETWORK_REBOOT
  | "system_reboot" => some .SYSTEM_REBOOT
  | "auto_play" => some .AUTO_PLAY
  | "speaker_pattern" => some .SPEAKER_PATTERN
  | "party_mode" => some .PARTY_MODE
  | "analytics" => some .ANALYTICS
  | "ypao_volume" => some .YPAO_VOLUME
  | "party_volume" => some .PARTY_VOLUME
  | "party_mute" => some .PARTY_MUTE
  | "name_text_avr" => some .NAME_TEXT_AVR
  | "hdmi_standby_through" => some .HDMI_STANDBY_THROUGH
  | _ => none

/-- `ZONE_FUNC_LIST_TO_FEATURE_MAPPING.get(feature)` (`const.py`). -/
def ZONE_FUNC_LIST_TO_FEATURE_MAPPING : String → Option ZoneFeature
  | "power" => some .POWER
  | "sleep" => some .SLEEP
  | "volume" => some .VOLUME
  | "mute" => some .MUTE
  | "sound_program" => some .SOUND_PROGRAM
  | "surround_3d" => some .SURROUND_3D
  | "direct" => some .DIRECT
  | "pure_direct" => some .PURE_DIRECT
  | "enhancer" => some .ENHANCER
  | "tone_control" => some .TONE_CONTROL
  | "equalizer" => some .EQUALIZER
  | "balance" => some .BALANCE
  | "dialogue_level" => some .DIALOGUE_LEVEL
  | "dialogue_lift" => some .DIALOGUE_LIFT
  | "clear_voice" => some .CLEAR_VOICE
  | "subwoofer_volume" => some .SUBWOOFER_VOLUME
  | "bass_extension" => some .BASS_EXTENSION
  | "signal_info" => some .SIGNAL_INFO
  | "prepare_input_change" => some .PREPARE_INPUT_CHANGE
  | "link_control" => some .LINK_CONTROL
  | "link_audio_delay" => some .LINK_AUDIO_DELAY
  | "link_audio_quality" => some .LINK_AUDIO_QUALITY
  | "scene" => some .SCENE
  | "contents_display" => some .CONTENTS_DISPLAY
  | "cursor" => some .CURSOR
  | "menu" => some .MENU
  | "actual_volume" => some .ACTUAL_VOLUME
  | "audio_select" => some .AUDIO_SELECT
  | "surr_decoder_type" => some .SURR_DECODER_TYPE
  | "extra_bass" => some .EXTRA_BASS
  | "adaptive_drc" => some .ADAPTIVE_DRC
  | "dts_dialogue_control" => some .DTS_DIALOGUE_CONTROL
  | "adaptive_dsp_level" => some .ADAPTIVE_DSP_LEVEL
  | "mono" => some .MONO
  | _ => none

/-! ## Association-list helpers

Python `dict` objects keep insertion order; we model them as ordered
association lists.  `setKey` is `d[k] = v` (update in place when the
key exists, append otherwise), `lookupKey` is `d.get(k)`. -/

def lookupKey {α : Type} (m : List (String × α)) (k : String) : Option α :=
  match m with
  | [] => none
  | (k', v) :: rest => if k' = k then some v else lookupKey rest k

def containsKey {α : Type} (m : List (String × α)) (k : String) : Bool :=
  (lookupKey m k).isSome

def setKey {α : Type} (m : List (String × α)) (k : String) (v : α) :
    List (String × α) :=
  match m with
  | [] => [(k, v)]
  | (k', v') :: rest =>
      if k' = k then (k', v) :: rest else (k', v') :: setKey rest k v

/-- In-place mutation of the value stored under an existing key (a
Python attribute assignment through a shared object reference); a
missing key is left untouched (callers guard the lookup). -/
def updateKey {α : Type} : List (String × α) → String → (α → α) →
    List (String × α)
  | [], _, _ => []
  | (k', v) :: rest, k, f =>
      if k' = k then (k', f v) :: updateKey rest k f
      else (k', v) :: updateKey rest k f

/-! ## Device snapshot (`musiccast_data.py`) -/

/-- `MusicCastAlarmDetails`.  `preset_info` is an opaque JSON object,
modelled as an association list. -/
structure MusicCastAlarmDetails where
  enabled : Option Bool := none
  time : Option String := none
  playback_type : Option String := none
  resume_input : Option String := none
  preset : Option Int := none
  preset_type : Option String := none
  preset_info : Option (List (String × String)) := none
  beep : Option Bool := none
  deriving DecidableEq, Repr

/-- `MusicCastZoneData`.  Fields that Python annotates as non-optional
but assigns from `dict.get` (which may return `None`) are modelled as
`Option` with the constructor value wrapped in `some`. -/
structure MusicCastZoneData where
  features : List ZoneFeature := []
  power : Option String := none
  name : Option String := none
  min_volume : Int := 0
  max_volume : Int := 100
  current_volume : Option Int := some 0
  mute : Option Bool := some false
  input_list : List String := []
  input : Option String := none
  sound_program_list : List String := []
  sound_program : Option String := none
  sleep_time : Option Int := none
  subwoofer_volume : Option Int := none
  equalizer_mode : Option String := none
  equalizer_low : Option Int := none
  equalizer_mid : Option Int := none
  equalizer_high : Option Int := none
  tone_mode : Option String := none
  tone_bass : Option Int := none
  tone_treble : Option Int := none
  dialogue_level : Option Int := none
  dialogue_lift : Option Int := none
  dts_dialogue_control : Option Int := none
  link_audio_delay : Option String := none
  link_audio_quality : Option String := none
  link_control : Option String := none
  tone_control_mode_list : Option (List String) := none
  surr_decoder_type_list : Option (List String) := none
  link_control_list : Option (List String) := none
  link_audio_delay_list : Option (List String) := none
  link_audio_quality_list : Option (List String) := none
  equalizer_mode_list : Option (List String) := none
  range_step : List (String × RangeStep) := []
  func_list : List String := []
  capabilities : List String := []
  extra_bass : Option Bool := none
  bass_extension : Option Bool := none
  adaptive_drc : Option Bool := none
  enhancer : Option Bool := none
  pure_direct : Option Bool := none
  clear_voice : Option Bool := none
  surround_3d : Option Bool := none
  surr_decoder_type : Option String := none
  deriving DecidableEq, Repr

/-- `MusicCastData`.  `datetime` timestamps become abstract `Nat`
ticks supplied by the environment; the `asyncio.Lock` becomes the
Boolean `group_update_lock` (`True` = currently held). -/
structure MusicCastData where
  device_id : Option String := none
  model_name : Option String := none
  system_version : Option String := none
  api_version : Option String := none
  mac_addresses : Option (List (String × String)) := none
  network_name : Option String := none
  zones : List (String × MusicCastZoneData) := []
  input_names : List (String × String) := []
  sound_program_names : List (String × String) := []
  netusb_input : Option String := none
  netusb_playback : Option String := none
  netusb_repeat : Option String := none
  netusb_shuffle : Option String := none
  netusb_artist : Option String := none
  netusb_album : Option String := none
  netusb_track : Option String := none
  netusb_albumart_url : Option String := none
  netusb_play_time : Option Int := none
  netusb_play_time_updated : Option Nat := none
  netusb_total_time : Option Int := none
  netusb_preset_list : List (Nat × (Option String × Option String)) := []
  band : Option String := none
  am_freq : Int := 1
  fm_freq : Int := 1
  rds_text_a : String := ""
  rds_text_b : String := ""
  dab_service_label : String := ""
  dab_dls : String := ""
  last_group_role : Option String := none
  last_group_id : Option String := none
  group_id : Option String := none
  group_name : Option String := none
  group_role : Option String := none
  group_server_zone : Option String := none
  group_client_list : List String := []
  group_update_lock : Bool := false
  dimmer : Option Dimmer := none
  alarm_on : Option Bool := none
  alarm_volume : Option Int := none
  alarm_volume_range : Int × Int := (0, 0)
  alarm_volume_step : Int := 1
  alarm_fade_range : Int × Int := (0, 0)
  alarm_fade_step : Int := 1
  alarm_resume_input_list : List String := []
  alarm_preset_list : List String := []
  alarm_mode : Option String := none
  alarm_details : List (String × MusicCastAlarmDetails) := []
  speaker_a : Option Bool := none
  speaker_b : Option Bool := none
  party_enable : Option Bool := none
  capabilities : List String := []
  deriving DecidableEq, Repr

/-! ## Decoded JSON responses

One record type per REST endpoint the synchronization engine reads.
Responses are well-formed decoded JSON: a key read with
`dict.get(key, default)` becomes a field whose Lean default value is
that Python default, and a key whose *presence* steers control flow
becomes an `Option` field. -/

structure NetworkStatusResp where
  network_name : Option String := none
  mac_address : Option (List (String × String)) := none
  deriving DecidableEq, Repr

structure DeviceInfoResp where
  device_id : Option String := none
  model_name : Option String := none
  system_version : Option String := none
  api_version : Option String := none
  deriving DecidableEq, Repr

/-- `getNameText(None)` response: `zone_list` and `input_list` are
lists of `{id, text}` objects. -/
structure NameTextResp where
  zone_list : List (String × String) := []
  input_list : List (String × String) := []
  deriving DecidableEq, Repr

structure RangeStepEntry where
  id : String := ""
  min : Int := 0
  max : Int := 0
  step : Int := 1
  deriving DecidableEq, Repr

/-- One entry of `getFeatures().zone`. -/
structure FeatureZoneResp where
  id : String := ""
  sound_program_list : List String := []
  tone_control_mode_list : List String := ["manual"]
  surr_decoder_type_list : Option (List String) := none
  link_control_list : Option (List String) := none
  link_audio_delay_list : Option (List String) := none
  link_audio_quality_list : Option (List String) := none
  equalizer_mode_list : List String := ["manual"]
  range_step : List RangeStepEntry := []
  input_list : List String := []
  func_list : List String := []
  deriving DecidableEq, Repr

structure SystemFeaturesResp where
  func_list : List String := []
  range_step : Option (List RangeStepEntry) := none
  deriving DecidableEq, Repr

structure ClockFeaturesResp where
  func_list : List String := []
  alarm_mode_list : List String := []
  range_step : List RangeStepEntry := []
  alarm_preset_list : List String := []
  alarm_input_list : List String := []
  deriving DecidableEq, Repr

structure NetusbFeaturesResp where
  func_list : List String := []
  deriving DecidableEq, Repr

/-- `getFeatures()` response; `clock`, `netusb` and `tuner` model the
presence of those top-level keys. -/
structure FeaturesResp where
  system : SystemFeaturesResp := {}
  zone : List FeatureZoneResp := []
  clock : Option ClockFeaturesResp := none
  netusb : Option NetusbFeaturesResp := none
  tuner : Bool := false
  deriving DecidableEq, Repr

/-- `Zone.get_status(zone_id)` response. -/
structure ZoneStatusResp where
  power : Option String := none
  volume : Option Int := none
  mute : Option Bool := none
  sound_program : Option String := none
  sleep : Option Int := none
  extra_bass : Option Bool := none
  bass_extension : Option Bool := none
  adaptive_drc : Option Bool := none
  enhancer : Option Bool := none
  pure_direct : Option Bool := none
  surr_decoder_type : Option String := none
  equalizer_mode : Option String := none
  equalizer_low : Option Int := none
  equalizer_mid : Option Int := none
  equalizer_high : Option Int := none
  tone_mode : Option String := none
  tone_bass : Option Int := none
  tone_treble : Option Int := none
  dialogue_level : Option Int := none
  dialogue_lift : Option Int := none
  dts_dialogue_control : Option Int := none
  link_audio_delay : Option String := none
  link_audio_quality : Option String := none
  link_control : Option String := none
  party_enable : Option Bool := none
  input : Option String := none
  deriving DecidableEq, Repr

structure NetusbPlayInfoResp where
  input : Option String := none
  playback : Option String := none
  repeat_mode : Option String := none
  shuffle : Option String := none
  artist : Option String := none
  album : Option String := none
  track : Option String := none
  albumart_url : Option String := none
  total_time : Option Int := none
  play_time : Option Int := none
  deriving DecidableEq, Repr

structure NetusbPresetEntry where
  input : Option String := none
  text : Option String := none
  deriving DecidableEq, Repr

structure NetusbPresetResp where
  preset_info : List NetusbPresetEntry := []
  deriving DecidableEq, Repr

/-- `Tuner.get_play_info()` response; the nested `fm`/`am`/`rds`/`dab`
objects are flattened, one field per nested `get` in the source. -/
structure TunerPlayInfoResp where
  band : Option String := none
  fm_freq : Option Int := none
  am_freq : Option Int := none
  rds_radio_text_a : Option String := none
  rds_radio_text_b : Option String := none
  dab_service_label : Option String := none
  dab_dls : Option String := none
  deriving DecidableEq, Repr

structure ClientEntry where
  ip_address : Option String := none
  deriving DecidableEq, Repr

/-- `Dist.get_distribution_info()` response. -/
structure DistInfoResp where
  group_id : Option String := none
  group_name : Option String := none
  role : Option String := none
  server_zone : Option String := none
  client_list : List ClientEntry := []
  deriving DecidableEq, Repr

/-- One per-day object inside `getClockSettings().alarm`. -/
structure AlarmDayResp where
  time : Option String := none
  enable : Option Bool := none
  beep : Option Bool := none
  playback_type : Option String := none
  resume_input : Option String := none
  preset_num : Option Int := none
  preset_type : Option String := none
  netusb_info : List (String × String) := []
  tuner_info : List (String × String) := []
  deriving DecidableEq, Repr

structure ClockSettingsResp where
  alarm_on : Option Bool := none
  alarm_volume : Option Int := none
  alarm_mode : Option String := none
  days : List (String × AlarmDayResp) := []
  deriving DecidableEq, Repr

structure FuncStatusResp where
  speaker_a : Option Bool := none
  speaker_b : Option Bool := none
  dimmer : Option Int := none
  deriving DecidableEq, Repr

/-! ## The device object (`MusicCastDevice.__init__`)

Fields whose Python name starts with an underscore keep the name with
the underscore moved to the end (`_features` becomes `features_`), to
avoid Lean's inaccessible-name convention. -/

structure Device where
  ip : String := ""
  /-- `self.features` — the device-level feature bitset. -/
  features : List DeviceFeature := []
  /-- `self.group_reduce_by_source`. -/
  group_reduce_by_source : Bool := false
  /-- `self._callbacks` — registered state-change callback tokens. -/
  callbacks_ : List Nat := []
  /-- `self._group_update_callbacks`. -/
  group_update_callbacks_ : List Nat := []
  /-- `self.data`. -/
  data : MusicCastData := {}
  /-- `self._zone_ids`. -/
  zone_ids_ : List String := []
  /-- `self._network_status` (cold cache). -/
  network_status_ : Option NetworkStatusResp := none
  /-- `self._device_info` (cold cache). -/
  device_info_ : Option DeviceInfoResp := none
  /-- `self._features` (cold cache). -/
  features_ : Option FeaturesResp := none
  /-- `self._netusb_play_info`. -/
  netusb_play_info_ : Option NetusbPlayInfoResp := none
  /-- `self._tuner_play_info`. -/
  tuner_play_info_ : Option TunerPlayInfoResp := none
  /-- `self._clock_info`. -/
  clock_info_ : Option ClockSettingsResp := none
  /-- `self._func_status`. -/
  func_status_ : Option FuncStatusResp := none
  /-- `self._distribution_info`. -/
  distribution_info_ : Option DistInfoResp := none
  /-- `self._name_text`. -/
  name_text_ : Option NameTextResp := none
  deriving DecidableEq, Repr

/-! ## Effects and the environment -/

/-- One entry per outbound request, sleep tick or callback invocation,
in program order.  `groupCb` records the value of
`group_reduce_by_source` that the callback observes. -/
inductive Effect where
  | getNetworkStatus | getDeviceInfo | getNameText | getFeatures
  | getZoneStatus (zone_id : String)
  | getNetusbPlayInfo | getNetusbPresetInfo | getTunerPlayInfo
  | getDistributionInfo | getClockSettings | getFuncStatus
  | setServerInfo (group_id : String) (zone : String) (kind : String)
      (client_ips : List String)
  | startDistribution (num : Nat)
  | sleep
  | groupCb (cb : Nat) (reduce_flag : Bool)
  | stateCb (cb : Nat)
  deriving DecidableEq, Repr

/-- The world outside the device object: the decoded response for each
request the engine can issue, which group callbacks raise, the
concurrent push updates delivered while `wait_for_data_update` sleeps,
and the current wall-clock tick (`datetime.utcnow()`). -/
structure Env where
  network_status : NetworkStatusResp := {}
  device_info : DeviceInfoResp := {}
  name_text : NameTextResp := {}
  features : FeaturesResp := {}
  zone_status : String → ZoneStatusResp := fun _ => {}
  netusb_play_info : NetusbPlayInfoResp := {}
  netusb_preset_info : NetusbPresetResp := {}
  tuner_play_info : TunerPlayInfoResp := {}
  distribution_info : DistInfoResp := {}
  clock_settings : ClockSettingsResp := {}
  func_status : FuncStatusResp := {}
  cbRaises : Nat → Bool := fun _ => false
  pushes : List (Device → Device) := []
  now : Nat := 0

/-! ## The state-and-error monad

A Python coroutine mutating `self` while issuing requests.  The state
(device plus effect log) survives errors the way Python state survives
a raised exception. -/

structure St where
  dev : Device
  log : List Effect
  deriving DecidableEq, Repr

def M (α : Type) : Type := St → Except Err α × St

def M.pure {α : Type} (a : α) : M α := fun s => (.ok a, s)

def M.bind {α β : Type} (x : M α) (f : α → M β) : M β := fun s =>
  match x s with
  | (.ok a, s') => f a s'
  | (.error e, s') => (.error e, s')

instance : Monad M where
  pure := M.pure
  bind := M.bind

def getDev : M Device := fun s => (.ok s.dev, s)

def modifyDev (f : Device → Device) : M Unit :=
  fun s => (.ok (), { s with dev := f s.dev })

def modifyData (f : MusicCastData → MusicCastData) : M Unit :=
  modifyDev fun d => { d with data := f d.data }

/-- In-place mutation of an existing zone object. -/
def modifyZone (zone_id : String) (f : MusicCastZoneData → MusicCastZoneData) :
    M Unit :=
  modifyData fun d => { d with zones := updateKey d.zones zone_id f }

/-- Record an outbound request / sleep / callback invocation. -/
def tell (e : Effect) : M Unit := fun s => (.ok (), { s with log := s.log ++ [e] })

def throwErr {α : Type} (e : Err) : M α := fun s => (.error e, s)

/-- `try: body finally: fin` where `fin` cannot raise. -/
def tryFinally (body fin : M Unit) : M Unit := fun s =>
  let r := body s
  let r' := fin r.2
  (match r.1 with
   | .ok _ => r'.1
   | .error e => .error e, r'.2)

/-- Set the held-state of the group-update lock. -/
def setLock (b : Bool) (dev : Device) : Device :=
  { dev with data := { dev.data with group_update_lock := b } }

/-- `async with self.data.group_update_lock:` — acquire on entry,
release on exit, also when the body raises.  (The caller holds the
cooperative-scheduling domain, so acquisition never blocks here.) -/
def withGroupLock {α : Type} (body : M α) : M α := fun s =>
  let s := { s with dev := setLock true s.dev }
  let r := body s
  (r.1, { r.2 with dev := setLock false r.2.dev })

/-! ## Callback invocation -/

/-- `for cb in self._group_update_callbacks: await cb()`.

Each invocation is logged together with the `group_reduce_by_source`
value the callback observes; the environment decides which callbacks
raise, and a raising callback aborts the remainder of the loop the way
a Python exception would. -/
def runGroupCallbacks (env : Env) : List Nat → M Unit
  | [] => pure ()
  | cb :: rest => do
      let dev ← getDev
      tell (.groupCb cb dev.group_reduce_by_source)
      if env.cbRaises cb then throwErr (.cbError cb)
      else runGroupCallbacks env rest

/-- `for callback in self._callbacks: callback()` — the synchronous
state-change observers at the end of `handle`. -/
def runStateCallbacks : M Unit := fun s =>
  (.ok (), { s with log := s.log ++ s.dev.callbacks_.map .stateCb })

/-- `new = dict.get(key, old)` for an `Option`-typed attribute. -/
def orKeep {α : Type} (new : Option α) (old : Option α) : Option α :=
  match new with
  | some v => some v
  | none => old

/-! ## `_update_input` (`musiccast_device.py`, lines 172-187) -/

/-- If the input of a zone changes from or to `MC_LINK`, a group update
has to be triggered. -/
def _update_input (env : Env) (zone_id : String) (new_input : Option String) :
    M Unit := do
  let dev ← getDev
  match lookupKey dev.data.zones zone_id with
  | none => throwErr (.keyError zone_id)
  | some zone => do
      let trigger_group_cb :=
        (zone.input == some MC_LINK || new_input == some MC_LINK)
          && !dev.data.group_update_lock
      modifyZone zone_id (fun z => { z with input := new_input })
      if trigger_group_cb then do
        let dev ← getDev
        match lookupKey dev.data.zones zone_id with
        | none => throwErr (.keyError zone_id)
        | some z => do
            if z.input != some MC_LINK then
              modifyDev fun d => { d with group_reduce_by_source := true }
            tryFinally
              (do
                let dev ← getDev
                runGroupCallbacks env dev.group_update_callbacks_)
              (modifyDev fun d => { d with group_reduce_by_source := false })

/-! ## The `_fetch_*` helpers (`musiccast_device.py`) -/

/-- `_fetch_netusb` (lines 191-223). -/
def _fetch_netusb (env : Env) : M Unit := do
  tell .getNetusbPlayInfo
  modifyDev fun dev =>
    let info := env.netusb_play_info
    { dev with
      netusb_play_info_ := some info
      data := { dev.data with
        netusb_input := orKeep info.input dev.data.netusb_input
        netusb_playback := orKeep info.playback dev.data.netusb_playback
        netusb_repeat := orKeep info.repeat_mode dev.data.netusb_repeat
        netusb_shuffle := orKeep info.shuffle dev.data.netusb_shuffle
        netusb_artist := orKeep info.artist dev.data.netusb_artist
        netusb_album := orKeep info.album dev.data.netusb_album
        netusb_track := orKeep info.track dev.data.netusb_track
        netusb_albumart_url := orKeep info.albumart_url dev.data.netusb_albumart_url
        netusb_total_time := info.total_time
        netusb_play_time := info.play_time
        netusb_play_time_updated := some env.now } }

/-- `_fetch_tuner` (lines 225-255); `.strip()` is `String.trim`. -/
def _fetch_tuner (env : Env) : M Unit := do
  tell .getTunerPlayInfo
  modifyDev fun dev =>
    let info := env.tuner_play_info
    { dev with
      tuner_play_info_ := some info
      data := { dev.data with
        band := orKeep info.band dev.data.band
        fm_freq := info.fm_freq.getD dev.data.fm_freq
        am_freq := info.am_freq.getD dev.data.am_freq
        rds_text_a := (info.rds_radio_text_a.getD dev.data.rds_text_a).trim
        rds_text_b := (info.rds_radio_text_b.getD dev.data.rds_text_b).trim
        dab_service_label :=
          (info.dab_service_label.getD dev.data.dab_service_label).trim
        dab_dls := (info.dab_dls.getD dev.data.dab_dls).trim } }

/-- `_fetch_zone` (lines 257-296): refresh a zone's live state, store
the zone object back, then run the input-change side effect. -/
def _fetch_zone (env : Env) (zone_id : String) : M Unit := do
  tell (.getZoneStatus zone_id)
  let zone := env.zone_status zone_id
  modifyDev fun dev =>
    let zone_data := (lookupKey dev.data.zones zone_id).getD {}
    let zone_data := { zone_data with
      power := zone.power
      current_volume := zone.volume
      mute := zone.mute
      sound_program := zone.sound_program
      sleep_time := zone.sleep
      extra_bass := zone.extra_bass
      bass_extension := zone.bass_extension
      adaptive_drc := zone.adaptive_drc
      enhancer := zone.enhancer
      pure_direct := zone.pure_direct
      surr_decoder_type := zone.surr_decoder_type
      equalizer_mode := zone.equalizer_mode
      equalizer_high := zone.equalizer_high
      equalizer_mid := zone.equalizer_mid
      equalizer_low := zone.equalizer_low
      tone_mode := zone.tone_mode
      tone_bass := zone.tone_bass
      tone_treble := zone.tone_treble
      dialogue_level := zone.dialogue_level
      dialogue_lift := zone.dialogue_lift
      dts_dialogue_control := zone.dts_dialogue_control
      link_audio_delay := zone.link_audio_delay
      link_audio_quality := zone.link_audio_quality
      link_control := zone.link_control }
    { dev with data := { dev.data with
        party_enable := zone.party_enable
        zones := setKey dev.data.zones zone_id zone_data } }
  _update_input env zone_id zone.input

/-- The field assignments of `_fetch_distribution_data` (lines
300-312): capture the previous group id/role into
`last_group_id`/`last_group_role`, then overwrite the group fields from
the response. -/
def distDataAfter (env : Env) (dev : Device) : Device :=
  let info := env.distribution_info
  { dev with
    distribution_info_ := some info
    data := { dev.data with
      last_group_role := dev.data.group_role
      last_group_id := dev.data.group_id
      group_id := info.group_id
      group_name := info.group_name
      group_role := info.role
      group_server_zone := info.server_zone
      group_client_list :=
        info.client_list.map (fun client => client.ip_address.getD "") } }

/-- `_fetch_distribution_data` (lines 298-315): apply the field
assignments above, then notify the group observers unless the
group-update lock is held. -/
def _fetch_distribution_data (env : Env) : M Unit := do
  tell .getDistributionInfo
  modifyDev (distDataAfter env)
  let dev ← getDev
  if !dev.data.group_update_lock then
    runGroupCallbacks env dev.group_update_callbacks_

/-- Build the per-day alarm record assigned by `_fetch_clock_data`
(every field of the details object is overwritten; `preset_info` reads
the `preset_type` that was just assigned). -/
def mkAlarmDetails (day_info : AlarmDayResp) : MusicCastAlarmDetails :=
  { enabled := day_info.enable
    beep := day_info.beep
    time := match day_info.time with
      | some t => some (t.take 2 ++ ":" ++ t.drop 2)
      | none => none
    playback_type := day_info.playback_type
    resume_input := day_info.resume_input
    preset := day_info.preset_num
    preset_type := day_info.preset_type
    preset_info := some (if day_info.preset_type == some "netusb" then
      day_info.netusb_info else day_info.tuner_info) }

/-- `_fetch_clock_data` (lines 317-354). -/
def _fetch_clock_data (env : Env) : M Unit := do
  tell .getClockSettings
  modifyDev fun dev =>
    let ci := env.clock_settings
    let dev := { dev with
      clock_info_ := some ci
      data := { dev.data with
        alarm_on := some (ci.alarm_on.getD false)
        alarm_volume := ci.alarm_volume
        alarm_mode := ci.alarm_mode } }
    let days :=
      (if dev.features.contains .ALARM_WEEKLY then ALARM_WEEK_DAYS else [])
        ++ (if dev.features.contains .ALARM_ONEDAY then [ALARM_ONEDAY] else [])
    { dev with data := { dev.data with
        alarm_details := days.foldl (fun details day =>
          setKey details day (mkAlarmDetails ((lookupKey ci.days day).getD {})))
          dev.data.alarm_details } }

/-- `_fetch_func_status` (lines 356-370). -/
def _fetch_func_status (env : Env) : M Unit := do
  tell .getFuncStatus
  modifyDev fun dev =>
    let fs := env.func_status
    let dev := { dev with func_status_ := some fs }
    let dev := if dev.features.contains .SPEAKER_A then
        { dev with data := { dev.data with speaker_a := fs.speaker_a } }
      else dev
    let dev := if dev.features.contains .SPEAKER_B then
        { dev with data := { dev.data with speaker_b := fs.speaker_b } }
      else dev
    match dev.features.contains .DIMMER, fs.dimmer, dev.data.dimmer with
    | true, some v, some dm =>
        { dev with data := { dev.data with
            dimmer := some { dm with dimmer_current := v } } }
    | _, _, _ => dev

/-- `_fetch_netusb_presets` (lines 1256-1262). -/
def _fetch_netusb_presets (env : Env) : M Unit := do
  tell .getNetusbPresetInfo
  modifyDev fun dev =>
    { dev with data := { dev.data with
        netusb_preset_list :=
          (env.netusb_preset_info.preset_info.enum.filterMap fun p =>
            if p.2.input != some "unknown" then
              some (p.1 + 1, (p.2.input, p.2.text))
            else none) } }

/-! ## Full discovery: `fetch` (`musiccast_device.py`, lines 372-525) -/

/-- The per-zone body of the feature-discovery loop (lines 411-458). -/
def setupZoneFeatures (zone_names : List (String × String))
    (zf : FeatureZoneResp) : M Unit := do
  let zone_id := zf.id
  let dev ← getDev
  let zone_data := (lookupKey dev.data.zones zone_id).getD {}
  let zone_data := { zone_data with
    sound_program_list := zf.sound_program_list
    tone_control_mode_list := some zf.tone_control_mode_list
    surr_decoder_type_list := zf.surr_decoder_type_list
    link_control_list := zf.link_control_list
    link_audio_delay_list := zf.link_audio_delay_list
    link_audio_quality_list := zf.link_audio_quality_list
    equalizer_mode_list := some zf.equalizer_mode_list }
  let zone_data := { zone_data with
    range_step := zf.range_step.foldl (fun m (e : RangeStepEntry) =>
      setKey m e.id { minimum := e.min, maximum := e.max, step := e.step })
      zone_data.range_step }
  let zone_data := { zone_data with
    input_list := zf.input_list
    func_list := zf.func_list
    name := lookupKey zone_names zone_id }
  let zone_data := { zone_data with
    features := zf.func_list.foldl (fun acc f =>
      match ZONE_FUNC_LIST_TO_FEATURE_MAPPING f with
      | some feature_bit => addFlag acc feature_bit
      | none => acc) zone_data.features }
  let zone_data ←
    if zone_data.features.contains .VOLUME then
      -- `next(item for item in zone.get("range_step") if item["id"] == "volume")`
      match zf.range_step.find? (fun (item : RangeStepEntry) => item.id == "volume") with
      | some range_volume =>
          pure { zone_data with
            min_volume := range_volume.min
            max_volume := range_volume.max }
      | none => throwErr .stopIteration
    else
      pure zone_data
  modifyData fun d => { d with zones := setKey d.zones zone_id zone_data }

def setupZonesLoop (zone_names : List (String × String)) :
    List FeatureZoneResp → M Unit
  | [] => pure ()
  | zf :: rest => do
      setupZoneFeatures zone_names zf
      setupZonesLoop zone_names rest

/-- The clock part of the feature-discovery block (lines 460-494). -/
def applyClockFeatures (ck : ClockFeaturesResp) (dev : Device) : Device :=
  let feats := dev.features
  let feats := if ck.func_list.contains "alarm" then
      let feats := if ck.alarm_mode_list.contains ALARM_ONEDAY then
          addFlag feats .ALARM_ONEDAY
        else feats
      if ck.alarm_mode_list.contains ALARM_WEEKLY then
        addFlag feats .ALARM_WEEKLY
      else feats
    else feats
  let feats := if ck.func_list.contains "date_and_time" then
      addFlag feats .CLOCK
    else feats
  let dev := { dev with features := feats }
  let dev := ck.range_step.foldl (fun dev vr =>
    let dev := if vr.id == "alarm_volume" then
        { dev with data := { dev.data with
            alarm_volume_range := (vr.min, vr.max)
            alarm_volume_step := vr.step } }
      else dev
    if vr.id == "alarm_fade" then
      { dev with data := { dev.data with
          alarm_fade_range := (vr.min, vr.max)
          alarm_fade_step := vr.step } }
    else dev) dev
  { dev with data := { dev.data with
      alarm_preset_list := ck.alarm_preset_list
      alarm_resume_input_list := ck.alarm_input_list } }

/-- The `if not self._features:` body of `fetch` (lines 394-494). -/
def fetchFeaturesBlock (env : Env) (zone_names : List (String × String)) :
    M Unit := do
  tell .getFeatures
  let F := env.features
  modifyDev fun dev =>
    let dev := { dev with features_ := some F }
    let feats := F.system.func_list.foldl (fun acc feature =>
      match DEVICE_FUNC_LIST_TO_FEATURE_MAPPING feature with
      | some feature_bit => addFlag acc feature_bit
      | none => acc) dev.features
    { dev with features := feats, zone_ids_ := F.zone.map (fun z => z.id) }
  setupZonesLoop zone_names F.zone
  match F.clock with
  | some ck => modifyDev (applyClockFeatures ck)
  | none => pure ()

def fetchZonesLoop (env : Env) : List String → M Unit
  | [] => pure ()
  | zone :: rest => do
      _fetch_zone env zone
      fetchZonesLoop env rest

/-- `fetch` — full discovery.  The network-status, device-info and
feature-list requests are each guarded by `if not self._<cache>:`; the
name-text, netusb, tuner, distribution, clock, zone and func-status
sub-fetches re-run on every call. -/
def fetch (env : Env) : M Unit := do
  let dev ← getDev
  if dev.network_status_.isNone then do
    tell .getNetworkStatus
    modifyDev fun d => { d with
      network_status_ := some env.network_status
      data := { d.data with
        network_name := env.network_status.network_name
        mac_addresses := env.network_status.mac_address } }
  let dev ← getDev
  if dev.device_info_.isNone then do
    tell .getDeviceInfo
    modifyDev fun d => { d with
      device_info_ := some env.device_info
      data := { d.data with
        device_id := env.device_info.device_id
        model_name := env.device_info.model_name
        system_version := env.device_info.system_version
        api_version := env.device_info.api_version } }
  tell .getNameText
  modifyDev fun d => { d with name_text_ := some env.name_text }
  let zone_names := env.name_text.zone_list
  let dev ← getDev
  if dev.features_.isNone then
    fetchFeaturesBlock env zone_names
  modifyData fun d => { d with input_names := env.name_text.input_list }
  let dev ← getDev
  let F := dev.features_.getD {}
  (match F.netusb with
   | some nf =>
       if !nf.func_list.isEmpty then do
         _fetch_netusb env
         _fetch_netusb_presets env
       else pure ()
   | none => pure ())
  if F.tuner then _fetch_tuner env
  _fetch_distribution_data env
  let dev ← getDev
  if dev.features.contains .ALARM_ONEDAY || dev.features.contains .ALARM_WEEKLY then
    _fetch_clock_data env
  let dev ← getDev
  fetchZonesLoop env dev.zone_ids_
  let dev ← getDev
  (match dev.features.contains .DIMMER, (dev.features_.getD {}).system.range_step with
   | true, some ranges =>
       if !ranges.isEmpty then
         match ranges.find? (fun x => x.id == "dimmer") with
         | some dimmer_range =>
             modifyData fun d => { d with dimmer := some {
               minimum := dimmer_range.min
               maximum := dimmer_range.max
               step := dimmer_range.step
               dimmer_current := 0 } }
         | none => throwErr .stopIteration
       else pure ()
   | _, _ => pure ())
  _fetch_func_status env

/-- The tail of `fetch` from the per-zone loop on (the statements after
the clock sub-fetch), named so the branches of the unconditional `if`s
above it can be reasoned about once. -/
def fetchTail2 (env : Env) : M Unit := do
  let dev ← getDev
  fetchZonesLoop env dev.zone_ids_
  let dev ← getDev
  (match dev.features.contains .DIMMER, (dev.features_.getD {}).system.range_step with
   | true, some ranges =>
       if !ranges.isEmpty then
         match ranges.find? (fun x => x.id == "dimmer") with
         | some dimmer_range =>
             modifyData fun d => { d with dimmer := some {
               minimum := dimmer_range.min
               maximum := dimmer_range.max
               step := dimmer_range.step
               dimmer_current := 0 } }
         | none => throwErr .stopIteration
       else pure ()
   | _, _ => pure ())
  _fetch_func_status env

/-- The tail of `fetch` from the distribution sub-fetch on. -/
def fetchTail1 (env : Env) : M Unit := do
  _fetch_distribution_data env
  let dev ← getDev
  if dev.features.contains .ALARM_ONEDAY || dev.features.contains .ALARM_WEEKLY then
    _fetch_clock_data env
  fetchTail2 env

/-! ## Partial update: `handle` (`musiccast_device.py`, lines 102-162) -/

/-- The notification payload shape: one optional object per top-level
key, flags modelling the truthiness of `dict.get(key)`. -/
structure ZonePayload where
  volume : Option Int := none
  power : Option String := none
  mute : Option Bool := none
  input : Option String := none
  play_info_updated : Bool := false
  status_updated : Bool := false
  deriving DecidableEq, Repr

structure NetusbPayload where
  play_info_updated : Bool := false
  play_time : Option Int := none
  preset_info_updated : Bool := false
  deriving DecidableEq, Repr

structure TunerPayload where
  play_info_updated : Bool := false
  deriving DecidableEq, Repr

structure DistPayload where
  dist_info_updated : Bool := false
  deriving DecidableEq, Repr

structure ClockPayload where
  settings_updated : Bool := false
  deriving DecidableEq, Repr

structure SystemPayload where
  func_status_updated : Bool := false
  deriving DecidableEq, Repr

structure Msg where
  main : Option ZonePayload := none
  zone2 : Option ZonePayload := none
  zone3 : Option ZonePayload := none
  zone4 : Option ZonePayload := none
  netusb : Option NetusbPayload := none
  tuner : Option TunerPayload := none
  dist : Option DistPayload := none
  clock : Option ClockPayload := none
  system : Option SystemPayload := none
  deriving DecidableEq, Repr

/-- The body handling one of the `main|zone2|zone3|zone4` keys
(lines 108-131): merge the fields present, keep the rest, then run the
input side effect, and re-fetch the zone when the payload flags a
play-info or status update. -/
def handleZoneKey (env : Env) (zone_id : String) :
    Option ZonePayload → M Unit
  | none => pure ()
  | some new_zone_data => do
      let dev ← getDev
      (match lookupKey dev.data.zones zone_id with
       | some zone => do
           modifyZone zone_id (fun z =>
             { z with current_volume := orKeep new_zone_data.volume z.current_volume })
           modifyZone zone_id (fun z =>
             { z with power := orKeep new_zone_data.power z.power })
           modifyZone zone_id (fun z =>
             { z with mute := orKeep new_zone_data.mute z.mute })
           _update_input env zone_id (orKeep new_zone_data.input zone.input)
       | none => pure ())  -- a warning is logged, nothing raised
      if new_zone_data.play_info_updated || new_zone_data.status_updated then
        _fetch_zone env zone_id

/-- `handle` — the partial-update entry point driven by the UDP
listener. -/
def handle (env : Env) (message : Option Msg) : M Unit := do
  match message with
  | none => do
      -- `if message is None: await self.fetch()` …
      fetch env
      -- … and then, with no early return, `for parameter in message:`
      -- iterates over `None` and raises `TypeError`.
      throwErr .typeError
  | some msg => do
      handleZoneKey env "main" msg.main
      handleZoneKey env "zone2" msg.zone2
      handleZoneKey env "zone3" msg.zone3
      handleZoneKey env "zone4" msg.zone4
      (match msg.netusb with
       | some nb => do
           if nb.play_info_updated then _fetch_netusb env
           (match nb.play_time with
            | some play_time =>
                -- `if play_time:` — Python truthiness, so 0 does not update
                if play_time ≠ 0 then
                  modifyData fun d => { d with
                    netusb_play_time := some play_time
                    netusb_play_time_updated := some env.now }
                else pure ()
            | none => pure ())
           if nb.preset_info_updated then _fetch_netusb_presets env
       | none => pure ())
      (match msg.tuner with
       | some tp => if tp.play_info_updated then _fetch_tuner env else pure ()
       | none => pure ())
      (match msg.dist with
       | some dp =>
           if dp.dist_info_updated then _fetch_distribution_data env else pure ()
       | none => pure ())
      (match msg.clock with
       | some cp =>
           if cp.settings_updated then _fetch_clock_data env else pure ()
       | none => pure ())
      (match msg.system with
       | some sp =>
           if sp.func_status_updated then _fetch_func_status env else pure ()
       | none => pure ())
      runStateCallbacks

/-! ## Group data checking (`musiccast_device.py`, lines 1057-1098) -/

def _check_clients_removed (clients : List String) (dev : Device) : Bool :=
  clients.all (fun client => !dev.data.group_client_list.contains client)

def _check_clients_added (clients : List String) (dev : Device) : Bool :=
  clients.all (fun client => dev.data.group_client_list.contains client)

def _check_group_id (group_id : String) (dev : Device) : Bool :=
  dev.data.group_id == some group_id

def _check_source (source : String) (zone : String) (dev : Device) : Bool :=
  (lookupKey dev.data.zones zone).map (fun z => z.input) == some (some source)

def _check_group_role (role : String) (dev : Device) : Bool :=
  dev.data.group_role == some role

def _check_group_server_zone (zone : String) (dev : Device) : Bool :=
  dev.data.group_server_zone == some zone

/-- `wait_for_data_update` — poll the predicates every 100 ms until all
hold.  The loop itself never gives up; the `fuel` argument is the
polling budget that the surrounding `asyncio.wait_for(..., 1)` imposes
(10 ticks of 100 ms), and `pushes` are the concurrent UDP-driven state
updates the cooperative scheduler delivers while this coroutine sleeps.
The result is `true` when every predicate held at some poll, `false`
when the 1-second budget ran out (`asyncio.TimeoutError`). -/
def wait_for_data_update (checks : List (Device → Bool)) :
    Nat → List (Device → Device) → M Bool
  | fuel, pushes => do
      let dev ← getDev
      if checks.all (fun check => check dev) then
        pure true
      else
        match fuel with
        | 0 => pure false
        | fuel' + 1 => do
            tell .sleep
            match pushes with
            | [] => wait_for_data_update checks fuel' []
            | push :: rest => do
                modifyDev push
                wait_for_data_update checks fuel' rest

/-- `check_group_data` — bound the predicate wait by 1 second; on
timeout, log a warning and force a distribution re-fetch, then
re-evaluate the predicates once and return the boolean result. -/
def check_group_data (env : Env) (checks : List (Device → Bool)) : M Bool := do
  let completed ← wait_for_data_update checks 10 env.pushes
  if !completed then
    _fetch_distribution_data env
  let dev ← getDev
  pure (checks.all (fun check => check dev))

/-! ## `mc_server_group_extend` (`musiccast_device.py`, lines 1102-1127) -/

/-- One attempt of `mc_server_group_extend`: under the group-update
lock, post the server info, start distribution and verify via
`check_group_data`; on success return, otherwise run `onFail` (the
retry or the raise) after the lock is released. -/
def mc_server_group_extend_attempt (env : Env) (zone : String)
    (client_ips : List String) (group_id : String) (distribution_num : Nat)
    (onFail : M Unit) : M Unit := do
  let ok ← withGroupLock (do
    tell (.setServerInfo group_id zone "add" client_ips)
    tell (.startDistribution distribution_num)
    check_group_data env
      [fun dev => _check_clients_added client_ips dev,
       fun dev => _check_group_id group_id dev,
       fun dev => _check_group_role "server" dev,
       fun dev => _check_group_server_zone zone dev])
  if ok then pure () else onFail

/-- `mc_server_group_extend` with `retry` mapped to the number of
retries left (`retry=True` is 1, `retry=False` is 0); the final
failure raises `MusicCastGroupException(self.ip + ": Failed to extent
group by clients " + str(client_ips))`. -/
def mc_server_group_extend_core (env : Env) (zone : String)
    (client_ips : List String) (group_id : String) (distribution_num : Nat) :
    Nat → M Unit
  | 0 =>
      mc_server_group_extend_attempt env zone client_ips group_id
        distribution_num (do
          let dev ← getDev
          throwErr (.groupExtendFailed dev.ip client_ips))
  | n + 1 =>
      mc_server_group_extend_attempt env zone client_ips group_id
        distribution_num
        (mc_server_group_extend_core env zone client_ips group_id
          distribution_num n)

/-- The public entry point (`retry=True`): one retry. -/
def mc_server_group_extend (env : Env) (zone : String)
    (client_ips : List String) (group_id : String) (distribution_num : Nat) :
    M Unit :=
  mc_server_group_extend_core env zone client_ips group_id distribution_num 1

/-- A simulated responsive device: the state transition its UDP
notification causes, reporting the expected client list, group id,
`"server"` role and server zone after `mc_server_group_extend`'s
commands. -/
def respondAsServer (zone : String) (group_id : String)
    (client_ips : List String) (dev : Device) : Device :=
  { dev with data := { dev.data with
      group_id := some group_id
      group_role := some "server"
      group_server_zone := some zone
      group_client_list := client_ips } }

/-! ## Capabilities (`capabilities.py`) -/

inductive EntityType where
  | REGULAR | CONFIG | DIAGNOSTIC | SYSTEM
  deriving DecidableEq, Repr

/-- A call to the `set_value` delegate (the transport spy). -/
inductive SetterCall where
  | set_value (value : String)
  deriving DecidableEq, Repr

/-- `OptionSetter`: a capability to set a value from a list of valid
options (`options` maps option to display label). -/
structure OptionSetter where
  id : String := ""
  name : String := ""
  entity_type : EntityType := .REGULAR
  options : List (String × String) := []
  deriving DecidableEq, Repr

/-- `OptionSetter.set`:

```python
async def set(self, value):
    if value not in self.options.keys():
        raise ValueError("The given value is not a valid option")
    await super(OptionSetter, self).set(value)
```

`super().set` is `SettableCapability.set`, which awaits the
`set_value` delegate.  The result records the delegate calls performed
and either success or the raised `ValueError` message. -/
def OptionSetter.set (o : OptionSetter) (value : String) :
    List SetterCall × Except String Unit :=
  if !(o.options.map (fun p => p.1)).contains value then
    ([], .error "The given value is not a valid option")
  else
    ([.set_value value], .ok ())

/-- A call to the stored activation delegate `self._activate`. -/
inductive SceneCall where
  | activate_delegate
  deriving DecidableEq, Repr

/-- `Scene`: a class to enable a scene; `_activate` is the stored
activation callable. -/
structure Scene where
  id : String := ""
  num : Nat := 0
  entity_type : EntityType := .REGULAR
  deriving DecidableEq, Repr

/-- `Scene.activate`:

```python
async def activate(self):
    await self.activate()
```

The body re-invokes `activate` itself — not the stored `self._activate`
delegate — so the recursion has no base case.  `fuel` is the remaining
recursion budget (Python's recursion limit); the result is the list of
`_activate` delegate calls performed and whether the coroutine
completed (`false` means the budget was exhausted by the unbounded
self-recursion, Python's `RecursionError`). -/
def Scene.activate (s : Scene) : Nat → List SceneCall × Bool
  | 0 => ([], false)
  | fuel + 1 => Scene.activate s fuel

/-! ## Observation predicates for the `fetch` idempotence claim -/

/-- The three cold-discovery requests, each guarded in `fetch` by
`if not self._<cache>:`. -/
def isDiscoveryReq : Effect → Bool
  | .getNetworkStatus => true
  | .getDeviceInfo => true
  | .getFeatures => true
  | _ => false

/-- All three cold caches are populated — the state after any
successful first `fetch`. -/
def discoveryDone (dev : Device) : Bool :=
  dev.network_status_.isSome && dev.device_info_.isSome && dev.features_.isSome

/-- The discovery-populated part of a zone: everything the
`if not self._features:` block writes and no live re-fetch touches. -/
def zoneDiscovery (z : MusicCastZoneData) :
    List ZoneFeature × Int × Int × List String × List String × List String ×
      List (String × RangeStep) × Option String × Option (List String) ×
      Option (List String) × Option (List String) × Option (List String) ×
      Option (List String) × Option (List String) :=
  (z.features, z.min_volume, z.max_volume, z.input_list, z.func_list,
   z.sound_program_list, z.range_step, z.name, z.tone_control_mode_list,
   z.surr_decoder_type_list, z.link_control_list, z.link_audio_delay_list,
   z.link_audio_quality_list, z.equalizer_mode_list)

/-- `b` agrees with `a` on every discovery-populated field: the
guarded caches, the device-level fields written under the guards, and
the discovery part of every zone. -/
def SameDiscovery (a b : Device) : Prop :=
  b.features = a.features ∧
  b.zone_ids_ = a.zone_ids_ ∧
  b.network_status_ = a.network_status_ ∧
  b.device_info_ = a.device_info_ ∧
  b.features_ = a.features_ ∧
  b.data.network_name = a.data.network_name ∧
  b.data.mac_addresses = a.data.mac_addresses ∧
  b.data.device_id = a.data.device_id ∧
  b.data.model_name = a.data.model_name ∧
  b.data.system_version = a.data.system_version ∧
  b.data.api_version = a.data.api_version ∧
  b.data.alarm_volume_range = a.data.alarm_volume_range ∧
  b.data.alarm_volume_step = a.data.alarm_volume_step ∧
  b.data.alarm_fade_range = a.data.alarm_fade_range ∧
  b.data.alarm_fade_step = a.data.alarm_fade_step ∧
  b.data.alarm_preset_list = a.data.alarm_preset_list ∧
  b.data.alarm_resume_input_list = a.data.alarm_resume_input_list ∧
  ∀ k, (lookupKey b.data.zones k).map zoneDiscovery =
    (lookupKey a.data.zones k).map zoneDiscovery

/-- No effect in the list is one of the guarded discovery requests. -/
def NoDiscoveryReq (l : List Effect) : Prop :=
  ∀ e ∈ l, isDiscoveryReq e = false

/-- A device whose three cold caches are already populated, as after a
first successful `fetch`. -/
def c8Dev : Device :=
  { network_status_ := some {}, device_info_ := some {}, features_ := some {} }

/-- Running `m` from `s` preserves the discovery data and only appends
non-discovery requests to the log (on the success and the error path
alike). -/
def StepOKAt {α : Type} (m : M α) (s : St) : Prop :=
  SameDiscovery s.dev ((m s).2.dev) ∧
  ∃ Δ, (m s).2.log = s.log ++ Δ ∧ NoDiscoveryReq Δ

/-! # Theorems

First a small library of run-equations for the monad, then one theorem
per specification claim. -/

section RunLemmas

variable {α β : Type}

@[simp] theorem pure_run (a : α) (s : St) : (pure a : M α) s = (.ok a, s) := rfl

@[simp] theorem bind_run (x : M α) (f : α → M β) (s : St) :
    (x >>= f) s =
      (match x s with
       | (.ok a, s') => f a s'
       | (.error e, s') => (.error e, s')) := rfl

@[simp] theorem getDev_run (s : St) : getDev s = (.ok s.dev, s) := rfl

@[simp] theorem modifyDev_run (f : Device → Device) (s : St) :
    modifyDev f s = (.ok (), { s with dev := f s.dev }) := rfl

@[simp] theorem tell_run (e : Effect) (s : St) :
    tell e s = (.ok (), { s with log := s.log ++ [e] }) := rfl

@[simp] theorem throwErr_run (e : Err) (s : St) :
    (throwErr e : M α) s = (.error e, s) := rfl

end RunLemmas

section AssocLemmas

variable {α : Type}

@[simp] theorem lookupKey_nil (k : String) : lookupKey ([] : List (String × α)) k = none := rfl

@[simp] theorem lookupKey_cons (k' k : String) (v : α) (rest : List (String × α)) :
    lookupKey ((k', v) :: rest) k = if k' = k then some v else lookupKey rest k := rfl

theorem lookupKey_updateKey (m : List (String × α)) (k k' : String) (f : α → α) :
    lookupKey (updateKey m k f) k' =
      if k = k' then (lookupKey m k').map f else lookupKey m k' := by
  induction m with
  | nil => by_cases h : k = k' <;> simp [updateKey, h]
  | cons p rest ih =>
      obtain ⟨pk, pv⟩ := p
      by_cases h1 : pk = k
      · subst h1
        by_cases h2 : pk = k'
        · subst h2
          simp [updateKey, ih]
        · simp [updateKey, h2, ih]
      · by_cases h2 : pk = k'
        · subst h2
          have hkk : ¬ k = pk := fun h => h1 h.symm
          simp [updateKey, h1, hkk]
        · simp [updateKey, h1, h2, ih]

theorem updateKey_id (m : List (String × α)) (k : String) :
    updateKey m k (fun v => v) = m := by
  induction m with
  | nil => rfl
  | cons p rest ih =>
      obtain ⟨pk, pv⟩ := p
      by_cases h : pk = k <;> simp [updateKey, h, ih]

end AssocLemmas

/-- Group callbacks never mutate the device object; they only append to
the effect log and possibly raise. -/
theorem runGroupCallbacks_dev (env : Env) (l : List Nat) (s : St) :
    ((runGroupCallbacks env l) s).2.dev = s.dev := by
  induction l generalizing s with
  | nil => rfl
  | cons cb rest ih =>
      simp only [runGroupCallbacks, bind_run, getDev_run, tell_run]
      by_cases h : env.cbRaises cb
      · simp [h]
      · simpa [h] using ih _

/-- When none of the callbacks in the list raises, the loop succeeds
and appends one `groupCb` entry per callback, each recording the
current `group_reduce_by_source` value. -/
theorem runGroupCallbacks_ok (env : Env) (l : List Nat) (s : St)
    (h : ∀ cb ∈ l, env.cbRaises cb = false) :
    (runGroupCallbacks env l) s =
      (.ok (), { s with
        log := s.log ++ l.map (fun cb => .groupCb cb s.dev.group_reduce_by_source) }) := by
  induction l generalizing s with
  | nil => simp [runGroupCallbacks]
  | cons cb rest ih =>
      have hcb : env.cbRaises cb = false := h cb (by simp)
      simp only [runGroupCallbacks, bind_run, getDev_run, tell_run, hcb,
        Bool.false_eq_true, if_false]
      rw [ih _ (fun c hc => h c (by simp [hc]))]
      simp

/-- Every `groupCb` entry the loop appends records the
`group_reduce_by_source` value of the state it started from, whether or
not a callback raises along the way. -/
theorem runGroupCallbacks_log (env : Env) (l : List Nat) (s : St) :
    ∃ pre : List Nat,
      ((runGroupCallbacks env l) s).2.log =
        s.log ++ pre.map (fun cb => .groupCb cb s.dev.group_reduce_by_source) := by
  induction l generalizing s with
  | nil => exact ⟨[], by simp [runGroupCallbacks]⟩
  | cons cb rest ih =>
      by_cases hcb : env.cbRaises cb
      · exact ⟨[cb], by simp [runGroupCallbacks, hcb]⟩
      · obtain ⟨pre, hlog⟩ :=
          ih { s with log := s.log ++ [.groupCb cb s.dev.group_reduce_by_source] }
        refine ⟨cb :: pre, ?_⟩
        simp only [runGroupCallbacks, bind_run, getDev_run, tell_run, hcb,
          Bool.false_eq_true, if_false]
        simpa using hlog

/-! ## C1 — `RangeStep.check` -/

/-- C1 (claim as stated, refuted): the spec says `check(v)` succeeds
iff `minimum <= v <= maximum` and `(v - minimum) % step == 0`, but the
code tests `value % self.step`.  At `RangeStep(1, 10, 5)` and `v = 6`
the spec predicate holds while `check` raises. -/
theorem check_claim_counterexample :
    ¬ ((RangeStep.check { minimum := 1, maximum := 10, step := 5 } 6 = .ok ()) ↔
      ((1 : Int) ≤ 6 ∧ (6 : Int) ≤ 10 ∧ ((6 : Int) - 1) % 5 = 0)) := by
  intro h
  have h2 : RangeStep.check { minimum := 1, maximum := 10, step := 5 } 6 = .ok () :=
    h.mpr (by norm_num)
  have h3 : RangeStep.check { minimum := 1, maximum := 10, step := 5 } 6 =
      .error (.outOfRange 6 1 10 5) := rfl
  rw [h3] at h2
  exact Except.noConfusion h2

/-- C1 (amended): for `step >= 1` (the spec's own invariant, under
which Python `%` agrees with `Int.emod`), `check(v)` succeeds iff
`minimum <= v <= maximum` and `v % step == 0` — the remainder is taken
of the value itself, not of `v - minimum`. -/
theorem check_ok_iff (r : RangeStep) (v : Int) (hstep : 1 ≤ r.step) :
    r.check v = .ok () ↔ (r.minimum ≤ v ∧ v ≤ r.maximum ∧ v % r.step = 0) := by
  unfold RangeStep.check
  by_cases h : v > r.maximum ∨ v < r.minimum ∨ v % r.step ≠ 0
  · rw [if_pos h]
    constructor
    · intro hc; exact Except.noConfusion hc
    · rintro ⟨h1, h2, h3⟩
      rcases h with h | h | h
      · omega
      · omega
      · exact absurd h3 h
  · rw [if_neg h]
    push_neg at h
    exact iff_of_true rfl ⟨by omega, by omega, h.2.2⟩

/-- Witness for `check_ok_iff` at the spec's own example
`RangeStep(0, 100, 5)` and `v = 0`. -/
theorem check_ok_iff_witness :
    (1 : Int) ≤ ({ minimum := 0, maximum := 100, step := 5 } : RangeStep).step ∧
    (RangeStep.check { minimum := 0, maximum := 100, step := 5 } 0 = .ok () ↔
      ((0 : Int) ≤ 0 ∧ (0 : Int) ≤ 100 ∧ (0 : Int) % 5 = 0)) :=
  ⟨by decide, check_ok_iff { minimum := 0, maximum := 100, step := 5 } 0 (by decide)⟩

/-! ## C7 — `OptionSetter.set` rejects values outside the option map -/

/-- C7: for every value that is not a key of the option map,
`OptionSetter.set` raises the `ValueError` before the `set_value`
delegate (and hence the transport) is invoked: the recorded delegate
call list is empty. -/
theorem optionsetter_set_invalid (o : OptionSetter) (value : String)
    (h : (o.options.map (fun p => p.1)).contains value = false) :
    o.set value = ([], .error "The given value is not a valid option") := by
  simp only [OptionSetter.set, h, Bool.not_false, if_true]

/-- Witness for `optionsetter_set_invalid`: an option map
`{"a": "A"}` and the candidate `"b"`. -/
theorem optionsetter_set_invalid_witness :
    ((({ options := [("a", "A")] } : OptionSetter).options.map
        (fun p => p.1)).contains "b" = false) ∧
    ({ options := [("a", "A")] } : OptionSetter).set "b" =
      ([], .error "The given value is not a valid option") :=
  ⟨by decide, optionsetter_set_invalid { options := [("a", "A")] } "b" (by decide)⟩

/-! ## C10 — `Scene.activate` recurses into itself -/

/-- C10: `Scene.activate` re-invokes itself with no base case, so for
every recursion budget it neither calls the stored `_activate`
delegate (the call list stays empty) nor completes. -/
theorem scene_activate_never_delegates (s : Scene) (fuel : Nat) :
    s.activate fuel = ([], false) := by
  induction fuel with
  | zero => rfl
  | succ n ih => simpa [Scene.activate] using ih

/-! ## C9 — `_fetch_distribution_data` brackets every group-id transition -/

/-- C9: every distribution re-fetch first captures the previous
`group_id`/`group_role` into `last_group_id`/`last_group_role` and only
then stores the values reported by the device — on the success path and
also when a group callback raises afterwards. -/
theorem fetch_distribution_brackets (env : Env) (s : St) :
    ((_fetch_distribution_data env) s).2.dev.data.last_group_id = s.dev.data.group_id ∧
    ((_fetch_distribution_data env) s).2.dev.data.last_group_role = s.dev.data.group_role ∧
    ((_fetch_distribution_data env) s).2.dev.data.group_id = env.distribution_info.group_id ∧
    ((_fetch_distribution_data env) s).2.dev.data.group_role = env.distribution_info.role := by
  have hdev : ((_fetch_distribution_data env) s).2.dev = distDataAfter env s.dev := by
    simp only [_fetch_distribution_data, bind_run, tell_run, modifyDev_run, getDev_run]
    split
    · exact (runGroupCallbacks_dev env _ _)
    · rfl
  rw [hdev]
  exact ⟨rfl, rfl, rfl, rfl⟩

/-! ## C6 — input transition away from `MC_LINK` -/

/-- The guarded callback section of `_update_input`: run the group
observers, then reset the reduce-hint flag unconditionally. -/
theorem group_cb_section (env : Env) (s : St)
    (hflag : s.dev.group_reduce_by_source = true) :
    ((tryFinally
        (do
          let d ← getDev
          runGroupCallbacks env d.group_update_callbacks_)
        (modifyDev fun d => { d with group_reduce_by_source := false })) s).2.dev =
      { s.dev with group_reduce_by_source := false } ∧
    (∀ e ∈ ((tryFinally
        (do
          let d ← getDev
          runGroupCallbacks env d.group_update_callbacks_)
        (modifyDev fun d => { d with group_reduce_by_source := false })) s).2.log.drop s.log.length,
      ∃ cb, e = .groupCb cb true) ∧
    ((∀ cb ∈ s.dev.group_update_callbacks_, env.cbRaises cb = false) →
      ((tryFinally
        (do
          let d ← getDev
          runGroupCallbacks env d.group_update_callbacks_)
        (modifyDev fun d => { d with group_reduce_by_source := false })) s).2.log =
        s.log ++ s.dev.group_update_callbacks_.map (fun cb => .groupCb cb true) ∧
      ((tryFinally
        (do
          let d ← getDev
          runGroupCallbacks env d.group_update_callbacks_)
        (modifyDev fun d => { d with group_reduce_by_source := false })) s).1 = .ok ()) := by
  refine ⟨?_, ?_, ?_⟩
  · simp only [tryFinally, bind_run, getDev_run, modifyDev_run]
    simp [runGroupCallbacks_dev]
  · intro e he
    obtain ⟨pre, hlog⟩ := runGroupCallbacks_log env s.dev.group_update_callbacks_ s
    rw [hflag] at hlog
    simp only [tryFinally, bind_run, getDev_run, modifyDev_run, hlog,
      List.drop_left, List.mem_map] at he
    obtain ⟨cb, _, hcb⟩ := he
    exact ⟨cb, hcb.symm⟩
  · intro hnone
    have hok := runGroupCallbacks_ok env s.dev.group_update_callbacks_ s hnone
    rw [hflag] at hok
    constructor <;>
      · simp only [tryFinally, bind_run, getDev_run, modifyDev_run, hok]

/-- C6: when a zone's input goes from the link sentinel `MC_LINK` to
`"hdmi1"` while the group-update lock is free, the reduce-hint flag is
observably `true` during every group-observer invocation and `false`
in the final state regardless of callback failures; and when no
callback raises, every registered observer is invoked exactly once and
`_update_input` completes normally. -/
theorem update_input_reduce_hint (env : Env) (dev : Device) (zone_id : String)
    (z : MusicCastZoneData)
    (hz : lookupKey dev.data.zones zone_id = some z)
    (hmc : z.input = some MC_LINK)
    (hlock : dev.data.group_update_lock = false) :
    ((_update_input env zone_id (some "hdmi1")) { dev := dev, log := [] }).2.dev.group_reduce_by_source = false ∧
    (∀ e ∈ ((_update_input env zone_id (some "hdmi1")) { dev := dev, log := [] }).2.log,
      ∃ cb, e = .groupCb cb true) ∧
    ((∀ cb ∈ dev.group_update_callbacks_, env.cbRaises cb = false) →
      ((_update_input env zone_id (some "hdmi1")) { dev := dev, log := [] }).2.log =
        dev.group_update_callbacks_.map (fun cb => .groupCb cb true) ∧
      ((_update_input env zone_id (some "hdmi1")) { dev := dev, log := [] }).1 = .ok ()) := by
  have hlook1 : lookupKey
      (updateKey dev.data.zones zone_id (fun zz => { zz with input := some "hdmi1" }))
      zone_id = some { z with input := some "hdmi1" } := by
    rw [lookupKey_updateKey]
    simp [hz]
  obtain ⟨dev2, hdev2⟩ : ∃ d : Device, d =
      { dev with
        data := { dev.data with
          zones := updateKey dev.data.zones zone_id
            (fun zz => { zz with input := some "hdmi1" }) },
        group_reduce_by_source := true } := ⟨_, rfl⟩
  have hrun : (_update_input env zone_id (some "hdmi1")) { dev := dev, log := [] } =
      tryFinally
        (do
          let d ← getDev
          runGroupCallbacks env d.group_update_callbacks_)
        (modifyDev fun d => { d with group_reduce_by_source := false })
        { dev := dev2, log := [] } := by
    rw [hdev2]
    simp only [_update_input, bind_run, getDev_run, hz, hlock, hmc, modifyZone,
      modifyData, modifyDev_run, hlook1]
    simp [hlook1, MC_LINK]
  have hflag2 : dev2.group_reduce_by_source = true := by rw [hdev2]
  have hcbs2 : dev2.group_update_callbacks_ = dev.group_update_callbacks_ := by rw [hdev2]
  have hmain := group_cb_section env { dev := dev2, log := [] } hflag2
  rw [hrun]
  refine ⟨?_, ?_, ?_⟩
  · rw [hmain.1]
  · intro e he
    exact hmain.2.1 e (by simpa using he)
  · intro hnone
    have h3 := hmain.2.2 (by rw [hcbs2]; exact hnone)
    rw [hcbs2] at h3
    exact ⟨by rw [h3.1]; simp, h3.2⟩

/-! ## C3 — `handle` merges, it does not replace -/

theorem set_flag_false_self (d : Device) (h : d.group_reduce_by_source = false) :
    ({ d with group_reduce_by_source := false } : Device) = d := by
  cases d
  simp_all

/-- `_update_input` called with the zone's current input (the `handle`
path for a payload without an `"input"` key): whatever the trigger
condition decides and whether or not a group callback raises, the
device ends up with only the (idempotent) input write applied and the
reduce-hint flag still `false`. -/
theorem update_input_keep_dev (env : Env) (zone_id : String)
    (new_input : Option String) (s : St)
    (hz : (lookupKey s.dev.data.zones zone_id).map
      (fun zz => zz.input) = some new_input)
    (hflag : s.dev.group_reduce_by_source = false) :
    ((_update_input env zone_id new_input) s).2.dev =
      { s.dev with data := { s.dev.data with
          zones := updateKey s.dev.data.zones zone_id
            (fun zz => { zz with input := new_input }) } } := by
  rcases hzz : lookupKey s.dev.data.zones zone_id with _ | z
  · rw [hzz] at hz; exact absurd hz (by simp)
  rw [hzz] at hz
  have hin : z.input = new_input := by simpa using hz
  subst hin
  have hlook2 : lookupKey
      (updateKey s.dev.data.zones zone_id (fun zz => { zz with input := z.input }))
      zone_id = some z := by
    rw [lookupKey_updateKey]
    simp [hzz]
  simp only [_update_input, bind_run, getDev_run, hzz, modifyZone, modifyData,
    modifyDev_run]
  by_cases hc : ((z.input == some MC_LINK || z.input == some MC_LINK)
      && !s.dev.data.group_update_lock) = true
  · rw [if_pos hc]
    have hin2 : (z.input == some MC_LINK) = true := by
      rcases Bool.and_eq_true .. |>.mp hc with ⟨hor, _⟩
      simpa using Bool.or_eq_true .. |>.mp hor |>.elim id id
    simp only [bind_run, getDev_run, hlook2]
    rw [show (z.input != some MC_LINK) = false by simp [bne, hin2]]
    simp only [Bool.false_eq_true, if_false, pure_run, tryFinally, bind_run,
      getDev_run, modifyDev_run]
    rw [runGroupCallbacks_dev]
    exact set_flag_false_self _ hflag
  · rw [if_neg hc]
    rfl

/-- The `"main"`-key body of `handle({"main": {"volume": 42}})`: the
device keeps everything except the zone map, the `"main"` zone keeps
everything except `current_volume`, and the other zone keys are
untouched. -/
theorem handleZoneKey_main_spec (env : Env) (dev : Device)
    (z : MusicCastZoneData)
    (hz : lookupKey dev.data.zones "main" = some z)
    (hflag : dev.group_reduce_by_source = false) :
    ((handleZoneKey env "main" (some { volume := some 42 })) { dev := dev, log := [] }).2.dev =
      { dev with data := { dev.data with
          zones := ((handleZoneKey env "main" (some { volume := some 42 }))
            { dev := dev, log := [] }).2.dev.data.zones } } ∧
    lookupKey ((handleZoneKey env "main" (some { volume := some 42 }))
        { dev := dev, log := [] }).2.dev.data.zones "main" =
      some { z with current_volume := some 42 } ∧
    (∀ k, k ≠ "main" →
      lookupKey ((handleZoneKey env "main" (some { volume := some 42 }))
        { dev := dev, log := [] }).2.dev.data.zones k = lookupKey dev.data.zones k) := by
  simp only [handleZoneKey, bind_run, getDev_run, hz, modifyZone, modifyData,
    modifyDev_run, orKeep, Bool.or_self, Bool.false_eq_true, if_false, pure_run]
  split
  all_goals rename_i heq
  all_goals {
    have h2 := congrArg (fun p : Except Err Unit × St => p.2.dev) heq
    dsimp only at h2
    rw [update_input_keep_dev env "main" z.input] at h2
    · refine ⟨?_, ?_, ?_⟩
      · rw [← h2]
      · rw [← h2]
        simp only [lookupKey_updateKey, hz]
        simp
      · intro k hk
        have hk' : ¬ ("main" = k) := fun h => hk h.symm
        rw [← h2]
        simp only [lookupKey_updateKey, if_neg hk']
    · simp only [lookupKey_updateKey, hz]
      simp
    · exact hflag
  }

/-- C3: for a device state with a `"main"` zone (and the reduce-hint
flag in its quiescent `false` state), `handle({"main": {"volume": 42}})`
only rewrites `zones["main"].current_volume`: the device object is
otherwise unchanged (same netusb, tuner, group, clock, alarm and cache
fields), the `"main"` zone keeps every other field, and every other
zone key maps to its previous value — merge, not replace. -/
theorem handle_main_volume_merge (env : Env) (dev : Device)
    (z : MusicCastZoneData)
    (hz : lookupKey dev.data.zones "main" = some z)
    (hflag : dev.group_reduce_by_source = false) :
    ((handle env (some { main := some { volume := some 42 } })) { dev := dev, log := [] }).2.dev =
      { dev with data := { dev.data with
          zones := ((handle env (some { main := some { volume := some 42 } }))
            { dev := dev, log := [] }).2.dev.data.zones } } ∧
    lookupKey ((handle env (some { main := some { volume := some 42 } }))
        { dev := dev, log := [] }).2.dev.data.zones "main" =
      some { z with current_volume := some 42 } ∧
    (∀ k, k ≠ "main" →
      lookupKey ((handle env (some { main := some { volume := some 42 } }))
        { dev := dev, log := [] }).2.dev.data.zones k = lookupKey dev.data.zones k) := by
  have hmain := handleZoneKey_main_spec env dev z hz hflag
  simp only [handle, bind_run]
  split
  all_goals rename_i heq
  · -- the `"main"` body completed; the rest of `handle` only touches
    -- the effect log (all other payload keys are absent)
    rename_i a s1
    have hdev1 := congrArg (fun p : Except Err Unit × St => p.2.dev) heq
    simp only [handleZoneKey, bind_run, pure_run, runStateCallbacks]
    rw [heq] at hmain
    simp only at hmain hdev1
    exact hmain
  · -- a group callback raised inside the `"main"` body; the state is
    -- final as the error propagates
    rename_i e s1
    rw [heq] at hmain
    simp only at hmain
    exact hmain

/-- Witness for `handle_main_volume_merge`: a device with one default
`"main"` zone. -/
theorem handle_main_volume_merge_witness :
    lookupKey ({ data := { zones := [("main", {})] } } : Device).data.zones "main" =
      some ({} : MusicCastZoneData) ∧
    ({ data := { zones := [("main", {})] } } : Device).group_reduce_by_source = false ∧
    lookupKey ((handle ({} : Env) (some { main := some { volume := some 42 } }))
        { dev := { data := { zones := [("main", {})] } }, log := [] }).2.dev.data.zones "main" =
      some { ({} : MusicCastZoneData) with current_volume := some 42 } :=
  ⟨rfl, rfl,
    (handle_main_volume_merge {} { data := { zones := [("main", {})] } } {} rfl rfl).2.1⟩

/-- Witness for `update_input_reduce_hint`: one registered group
observer, a `"main"` zone currently on `MC_LINK`, lock free. -/
theorem update_input_reduce_hint_witness :
    lookupKey ({ group_update_callbacks_ := [7], data := { zones := [("main", { input := some MC_LINK })] } } : Device).data.zones "main" =
      some ({ input := some MC_LINK } : MusicCastZoneData) ∧
    ({ input := some MC_LINK } : MusicCastZoneData).input = some MC_LINK ∧
    ({ group_update_callbacks_ := [7], data := { zones := [("main", { input := some MC_LINK })] } } : Device).data.group_update_lock = false ∧
    ((_update_input ({} : Env) "main" (some "hdmi1"))
      { dev := { group_update_callbacks_ := [7], data := { zones := [("main", { input := some MC_LINK })] } },
        log := [] }).2.dev.group_reduce_by_source = false :=
  ⟨rfl, rfl, rfl,
    (update_input_reduce_hint {}
      { group_update_callbacks_ := [7], data := { zones := [("main", { input := some MC_LINK })] } }
      "main" { input := some MC_LINK } rfl rfl rfl).1⟩

/-! ## C5 — `check_group_data` timeout behaviour -/

/-- With no concurrent pushes and predicates that fail on the current
state, the predicate wait burns its whole polling budget (one `sleep`
per 100 ms tick) and reports a timeout. -/
theorem wait_for_data_update_const (checks : List (Device → Bool)) (fuel : Nat)
    (s : St) (h : checks.all (fun check => check s.dev) = false) :
    (wait_for_data_update checks fuel []) s =
      (.ok false, { s with log := s.log ++ List.replicate fuel .sleep }) := by
  induction fuel generalizing s with
  | zero =>
      simp only [wait_for_data_update, bind_run, getDev_run, h,
        Bool.false_eq_true, if_false, pure_run]
      simp
  | succ n ih =>
      simp only [wait_for_data_update, bind_run, getDev_run, h,
        Bool.false_eq_true, if_false, tell_run]
      rw [ih]
      · simp [List.replicate_succ]
      · exact h

/-- A distribution re-fetch whose group callbacks do not raise
completes normally, logging the one `getDistributionInfo` request
followed only by callback invocations. -/
theorem fetch_distribution_run (env : Env) (s : St)
    (hcb : ∀ cb ∈ s.dev.group_update_callbacks_, env.cbRaises cb = false) :
    ∃ tail : List Effect,
      (_fetch_distribution_data env) s =
        (.ok (), { dev := distDataAfter env s.dev,
                   log := s.log ++ .getDistributionInfo :: tail }) ∧
      (∀ e ∈ tail, ∃ cb b, e = .groupCb cb b) := by
  simp only [_fetch_distribution_data, bind_run, tell_run, modifyDev_run, getDev_run]
  by_cases hlock : s.dev.data.group_update_lock = true
  · refine ⟨[], ?_, by simp⟩
    have : (distDataAfter env s.dev).data.group_update_lock = true := hlock
    simp [this]
  · rw [Bool.not_eq_true] at hlock
    have hlock2 : (distDataAfter env s.dev).data.group_update_lock = false := hlock
    simp only [hlock2, Bool.not_false, if_true]
    rw [runGroupCallbacks_ok _ _ _ (by simpa using hcb)]
    refine ⟨(distDataAfter env s.dev).group_update_callbacks_.map
        (fun cb => Effect.groupCb cb (distDataAfter env s.dev).group_reduce_by_source),
      ?_, ?_⟩
    · simp
    · intro e he
      simp only [List.mem_map] at he
      obtain ⟨cb, _, hcb'⟩ := he
      exact ⟨cb, _, hcb'.symm⟩

/-- C5: `check_group_data` with a predicate list that always evaluates
false, no concurrent state change, and group callbacks that do not
raise: it returns `false` (never raising on the timeout itself) after
the full 1-second polling budget (10 × 100 ms sleeps) and triggers
exactly one forced distribution re-fetch. -/
theorem check_group_data_timeout (env : Env) (dev : Device)
    (checks : List (Device → Bool))
    (hfalse : ∀ d, checks.all (fun check => check d) = false)
    (hpush : env.pushes = [])
    (hcb : ∀ cb ∈ dev.group_update_callbacks_, env.cbRaises cb = false) :
    ((check_group_data env checks) { dev := dev, log := [] }).1 = .ok false ∧
    ((check_group_data env checks) { dev := dev, log := [] }).2.log.count
      Effect.getDistributionInfo = 1 ∧
    ((check_group_data env checks) { dev := dev, log := [] }).2.log.count
      Effect.sleep = 10 := by
  have hwait := wait_for_data_update_const checks 10
    { dev := dev, log := [] } (hfalse dev)
  obtain ⟨tail, hfd, htail⟩ := fetch_distribution_run env
    { dev := dev, log := ([] : List Effect) ++ List.replicate 10 .sleep } hcb
  have hrun : (check_group_data env checks) { dev := dev, log := [] } =
      (.ok false, { dev := distDataAfter env dev,
                    log := (([] : List Effect) ++ List.replicate 10 .sleep)
                      ++ .getDistributionInfo :: tail }) := by
    simp only [check_group_data, bind_run, hpush, hwait, Bool.not_false, if_true,
      pure_run, hfd, getDev_run]
    rw [hfalse (distDataAfter env dev)]
  rw [hrun]
  have hdist : tail.count Effect.getDistributionInfo = 0 := by
    rw [List.count_eq_zero]
    intro hmem
    obtain ⟨cb, b, hb⟩ := htail _ hmem
    cases hb
  have hsleep : tail.count Effect.sleep = 0 := by
    rw [List.count_eq_zero]
    intro hmem
    obtain ⟨cb, b, hb⟩ := htail _ hmem
    cases hb
  refine ⟨rfl, ?_, ?_⟩ <;>
    simp [List.count_append, List.count_cons, List.count_replicate, hdist, hsleep]

/-- Witness for `check_group_data_timeout`: the always-false predicate
list `[fun _ => false]` on a fresh device. -/
theorem check_group_data_timeout_witness :
    ((check_group_data ({} : Env) [fun _ => false]) { dev := {}, log := [] }).1 = .ok false ∧
    ((check_group_data ({} : Env) [fun _ => false]) { dev := {}, log := [] }).2.log.count
      Effect.getDistributionInfo = 1 ∧
    ((check_group_data ({} : Env) [fun _ => false]) { dev := {}, log := [] }).2.log.count
      Effect.sleep = 10 :=
  check_group_data_timeout {} {} [fun _ => false] (fun _ => rfl) rfl (by simp)

/-! ## C4 — `mc_server_group_extend` verify/retry semantics -/

/-- The verification predicates of `mc_server_group_extend` evaluate
false on any state whose group role is not `"server"`. -/
theorem extend_checks_false (client_ips : List String) (group_id zone : String)
    (d : Device) (h : d.data.group_role ≠ some "server") :
    (List.all
      [fun dev => _check_clients_added client_ips dev,
       fun dev => _check_group_id group_id dev,
       fun dev => _check_group_role "server" dev,
       fun dev => _check_group_server_zone zone dev]
      (fun check => check d)) = false := by
  have hrole : (d.data.group_role == some "server") = false :=
    beq_eq_false_iff_ne.mpr h
  simp [_check_clients_added, _check_group_id, _check_group_role,
    _check_group_server_zone, hrole]

/-- The verification predicates all hold on the state a responsive
device reports after the extend commands. -/
theorem extend_checks_true (client_ips : List String) (group_id zone : String)
    (d : Device) :
    (List.all
      [fun dev => _check_clients_added client_ips dev,
       fun dev => _check_group_id group_id dev,
       fun dev => _check_group_role "server" dev,
       fun dev => _check_group_server_zone zone dev]
      (fun check => check (respondAsServer zone group_id client_ips d))) = true := by
  simp [_check_clients_added, _check_group_id, _check_group_role,
    _check_group_server_zone, respondAsServer, List.all_eq_true]

/-- When every predicate already holds, the wait returns at the first
poll without sleeping, whatever the remaining budget and pushes. -/
theorem wait_for_data_update_done (checks : List (Device → Bool)) (fuel : Nat)
    (pushes : List (Device → Device)) (s : St)
    (h : (checks.all fun check => check s.dev) = true) :
    (wait_for_data_update checks fuel pushes) s = (.ok true, s) := by
  cases fuel <;> cases pushes <;>
    simp only [wait_for_data_update, bind_run, getDev_run, h, if_true, pure_run]

/-- One concurrent push that makes all predicates hold: the wait
returns after a single 100 ms sleep. -/
theorem wait_one_push (checks : List (Device → Bool)) (u : Device → Device)
    (fuel : Nat) (s : St)
    (h1 : (checks.all fun check => check s.dev) = false)
    (h2 : (checks.all fun check => check (u s.dev)) = true) :
    (wait_for_data_update checks (fuel + 1) [u]) s =
      (.ok true, { dev := u s.dev, log := s.log ++ [.sleep] }) := by
  simp only [wait_for_data_update, bind_run, getDev_run, h1, Bool.false_eq_true,
    if_false, tell_run, modifyDev_run]
  exact wait_for_data_update_done checks fuel [] _ h2

/-- An attempt against a device that never reports the expected state
(no pushes, distribution response without the `"server"` role): both
the 1-second wait and the forced re-fetch leave the predicates false,
so after 10 sleeps and one distribution fetch the attempt falls
through to `onFail` with the lock released. -/
theorem extend_attempt_fail_run (env : Env) (zone : String)
    (client_ips : List String) (group_id : String) (distribution_num : Nat)
    (onFail : M Unit) (s : St)
    (hpush : env.pushes = [])
    (hrole : s.dev.data.group_role ≠ some "server")
    (henv : env.distribution_info.role ≠ some "server") :
    (mc_server_group_extend_attempt env zone client_ips group_id
      distribution_num onFail) s =
      onFail { dev := setLock false (distDataAfter env (setLock true s.dev)),
               log := s.log ++ .setServerInfo group_id zone "add" client_ips ::
                 .startDistribution distribution_num ::
                 (List.replicate 10 .sleep ++ [.getDistributionInfo]) } := by
  have h1 := extend_checks_false client_ips group_id zone (setLock true s.dev) hrole
  have hwait := wait_for_data_update_const
    [fun dev => _check_clients_added client_ips dev,
     fun dev => _check_group_id group_id dev,
     fun dev => _check_group_role "server" dev,
     fun dev => _check_group_server_zone zone dev] 10
    { dev := setLock true s.dev,
      log := s.log ++ [.setServerInfo group_id zone "add" client_ips]
        ++ [.startDistribution distribution_num] } h1
  have hlockT : (distDataAfter env (setLock true s.dev)).data.group_update_lock = true := rfl
  have h2 := extend_checks_false client_ips group_id zone
    (distDataAfter env (setLock true s.dev)) henv
  simp only [mc_server_group_extend_attempt, withGroupLock, bind_run, tell_run,
    check_group_data, hpush, hwait, Bool.not_false, if_true,
    _fetch_distribution_data, modifyDev_run, getDev_run, hlockT, Bool.not_true,
    Bool.false_eq_true, if_false, pure_run, h2]
  congr 1
  simp

/-- C4: `mc_server_group_extend` verifies the group state after its
commands.  (a) Against a simulated device whose push notification
reports the expected client list, group id, `"server"` role and server
zone, it completes without retry and without raising: exactly one
`setServerInfo`/`startDistribution` pair is issued and no forced
re-fetch happens.  (b) Against a device that never updates its
reported state it runs exactly two attempts (one retry) and then
raises `MusicCastGroupException` naming its own ip and the client ips. -/
theorem mc_server_group_extend_retry_semantics (env : Env) (dev : Device)
    (zone group_id : String) (client_ips : List String) (distribution_num : Nat)
    (hrole : dev.data.group_role ≠ some "server") :
    (env.pushes = [respondAsServer zone group_id client_ips] →
      (mc_server_group_extend env zone client_ips group_id distribution_num)
          { dev := dev, log := [] } =
        (.ok (), { dev := setLock false
                     (respondAsServer zone group_id client_ips (setLock true dev)),
                   log := [.setServerInfo group_id zone "add" client_ips,
                     .startDistribution distribution_num, .sleep] })) ∧
    (env.pushes = [] → env.distribution_info.role ≠ some "server" →
      ((mc_server_group_extend env zone client_ips group_id distribution_num)
          { dev := dev, log := [] }).1 =
        .error (.groupExtendFailed dev.ip client_ips) ∧
      ((mc_server_group_extend env zone client_ips group_id distribution_num)
          { dev := dev, log := [] }).2.log.count
        (.setServerInfo group_id zone "add" client_ips) = 2 ∧
      ((mc_server_group_extend env zone client_ips group_id distribution_num)
          { dev := dev, log := [] }).2.log.count .getDistributionInfo = 2 ∧
      ((mc_server_group_extend env zone client_ips group_id distribution_num)
          { dev := dev, log := [] }).2.log.count .sleep = 20) := by
  constructor
  · -- (a) responsive device
    intro hpush
    have h1 := extend_checks_false client_ips group_id zone (setLock true dev) hrole
    have h2 := extend_checks_true client_ips group_id zone (setLock true dev)
    have hwait := wait_one_push
      [fun d => _check_clients_added client_ips d,
       fun d => _check_group_id group_id d,
       fun d => _check_group_role "server" d,
       fun d => _check_group_server_zone zone d]
      (respondAsServer zone group_id client_ips) 9
      { dev := setLock true dev,
        log := ([] : List Effect) ++ [.setServerInfo group_id zone "add" client_ips]
          ++ [.startDistribution distribution_num] } h1 h2
    norm_num at hwait
    simp only [mc_server_group_extend, mc_server_group_extend_core,
      mc_server_group_extend_attempt, withGroupLock, bind_run, tell_run,
      check_group_data, hpush, Bool.not_true, Bool.false_eq_true,
      if_false, getDev_run, pure_run, h2, if_true, List.nil_append,
      List.singleton_append]
    rw [hwait]
    simp only [bind_run, pure_run, getDev_run, Bool.not_true, Bool.false_eq_true,
      Bool.true_eq_false, if_false, if_true, h2]
  · -- (b) unresponsive device
    intro hpush henv
    have hfail1 := extend_attempt_fail_run env zone client_ips group_id
      distribution_num
      (mc_server_group_extend_core env zone client_ips group_id distribution_num 0)
      { dev := dev, log := [] } hpush hrole henv
    have hrole2 : (setLock false (distDataAfter env (setLock true dev))).data.group_role
        ≠ some "server" := henv
    have hfail2 := extend_attempt_fail_run env zone client_ips group_id
      distribution_num
      (do
        let d ← getDev
        throwErr (.groupExtendFailed d.ip client_ips))
      { dev := setLock false (distDataAfter env (setLock true dev)),
        log := ([] : List Effect) ++ .setServerInfo group_id zone "add" client_ips ::
          .startDistribution distribution_num ::
          (List.replicate 10 .sleep ++ [.getDistributionInfo]) } hpush hrole2 henv
    have hrun : (mc_server_group_extend env zone client_ips group_id
        distribution_num) { dev := dev, log := [] } =
        (do
          let d ← getDev
          throwErr (.groupExtendFailed d.ip client_ips))
          { dev := setLock false (distDataAfter env (setLock true
                     (setLock false (distDataAfter env (setLock true dev))))),
            log := (([] : List Effect) ++ Effect.setServerInfo group_id zone "add" client_ips ::
                     Effect.startDistribution distribution_num ::
                     (List.replicate 10 Effect.sleep ++ [Effect.getDistributionInfo]))
                   ++ Effect.setServerInfo group_id zone "add" client_ips ::
                     Effect.startDistribution distribution_num ::
                     (List.replicate 10 Effect.sleep ++ [Effect.getDistributionInfo]) } := by
      rw [mc_server_group_extend, mc_server_group_extend_core, hfail1,
        mc_server_group_extend_core, hfail2]
    have e1 := congrArg (fun p : Except Err Unit × St => p.1) hrun
    have e2 := congrArg (fun p : Except Err Unit × St => p.2.log) hrun
    simp only [bind_run, getDev_run, throwErr_run] at e1 e2
    simp only [setLock, distDataAfter] at e1
    refine ⟨e1, ?_, ?_, ?_⟩ <;>
      · rw [e2]
        simp [List.count_append, List.count_cons, List.count_replicate]

/-- Witness for `mc_server_group_extend_retry_semantics`, applied once
with a responsive environment and once with a silent one. -/
theorem mc_server_group_extend_retry_semantics_witness :
    ((mc_server_group_extend
        ({ pushes := [respondAsServer "main" "G1" ["10.0.0.5"]] } : Env)
        "main" ["10.0.0.5"] "G1" 2) { dev := {}, log := [] }).1 = .ok () ∧
    ((mc_server_group_extend ({} : Env) "main" ["10.0.0.5"] "G1" 2)
        { dev := {}, log := [] }).1 =
      .error (.groupExtendFailed "" ["10.0.0.5"]) := by
  constructor
  · have h := (mc_server_group_extend_retry_semantics
      { pushes := [respondAsServer "main" "G1" ["10.0.0.5"]] } {}
      "main" "G1" ["10.0.0.5"] 2 (by simp)).1 rfl
    rw [h]
  · exact ((mc_server_group_extend_retry_semantics {} {} "main" "G1"
      ["10.0.0.5"] 2 (by simp)).2 rfl (by simp)).1

/-! ## C2 — `handle(None)` -/

/-- C2: `handle(None)` does trigger a full `fetch()` — the effect log
shows the complete discovery sequence — but the coroutine then falls
into `for parameter in message:` with `message = None` and raises
`TypeError` instead of completing normally (the `if message is None`
branch has no `return`). -/
theorem handle_none_fetches_then_raises :
    ((handle ({} : Env) none) { dev := {}, log := [] }).2.log =
      [.getNetworkStatus, .getDeviceInfo, .getNameText, .getFeatures,
       .getDistributionInfo, .getFuncStatus] ∧
    ((handle ({} : Env) none) { dev := {}, log := [] }).1 = .error .typeError := by
  constructor <;> rfl

/-! ## C8 — `fetch` discovery idempotence -/

theorem SameDiscovery.refl (d : Device) : SameDiscovery d d :=
  ⟨rfl, rfl, rfl, rfl, rfl, rfl, rfl, rfl, rfl, rfl, rfl, rfl, rfl, rfl, rfl,
   rfl, rfl, fun _ => rfl⟩

theorem SameDiscovery.trans {a b c : Device}
    (h1 : SameDiscovery a b) (h2 : SameDiscovery b c) : SameDiscovery a c := by
  obtain ⟨e1, e2, e3, e4, e5, e6, e7, e8, e9, e10, e11, e12, e13, e14, e15, e16, e17, ez⟩ := h1
  obtain ⟨f1, f2, f3, f4, f5, f6, f7, f8, f9, f10, f11, f12, f13, f14, f15, f16, f17, fz⟩ := h2
  exact ⟨f1.trans e1, f2.trans e2, f3.trans e3, f4.trans e4, f5.trans e5,
    f6.trans e6, f7.trans e7, f8.trans e8, f9.trans e9, f10.trans e10,
    f11.trans e11, f12.trans e12, f13.trans e13, f14.trans e14, f15.trans e15,
    f16.trans e16, f17.trans e17, fun k => (fz k).trans (ez k)⟩

theorem SameDiscovery.isSome_zone {a b : Device} (h : SameDiscovery a b)
    (k : String) :
    (lookupKey b.data.zones k).isSome = (lookupKey a.data.zones k).isSome := by
  have := h.2.2.2.2.2.2.2.2.2.2.2.2.2.2.2.2.2 k
  cases hb : lookupKey b.data.zones k <;> cases ha : lookupKey a.data.zones k <;>
    rw [hb, ha] at this <;> simp_all

/-- Sequential composition preserves `StepOKAt`, also across an error
in the first computation. -/
theorem step_bind {α β : Type} (x : M α) (f : α → M β) (s : St)
    (hx : StepOKAt x s)
    (hf : ∀ a, (x s).1 = .ok a → StepOKAt (f a) (x s).2) :
    StepOKAt (x >>= f) s := by
  obtain ⟨hdev, Δ1, hlog, hnd⟩ := hx
  rcases hres : x s with ⟨res, s1⟩
  rw [hres] at hdev hlog
  dsimp only at hdev hlog
  cases res with
  | error e =>
      refine ⟨?_, Δ1, ?_, hnd⟩ <;> simp [bind_run, hres, hdev, hlog]
  | ok a =>
      obtain ⟨hdev2, Δ2, hlog2, hnd2⟩ := hf a (by rw [hres])
      rw [hres] at hdev2 hlog2
      refine ⟨?_, Δ1 ++ Δ2, ?_, ?_⟩
      · show SameDiscovery s.dev (((x >>= f) s).2.dev)
        have : ((x >>= f) s) = f a s1 := by simp [bind_run, hres]
        rw [this]
        exact SameDiscovery.trans hdev hdev2
      · have : ((x >>= f) s) = f a s1 := by simp [bind_run, hres]
        rw [this, hlog2, hlog, List.append_assoc]
      · intro e he
        rcases List.mem_append.mp he with h | h
        · exact hnd e h
        · exact hnd2 e h

theorem stepOK_pure {α : Type} (a : α) (s : St) : StepOKAt (pure a : M α) s :=
  ⟨SameDiscovery.refl _, [], by simp, fun _ h => absurd h (List.not_mem_nil _)⟩

theorem stepOK_getDev (s : St) : StepOKAt getDev s :=
  ⟨SameDiscovery.refl _, [], by simp, fun _ h => absurd h (List.not_mem_nil _)⟩

theorem stepOK_tell (e : Effect) (s : St) (he : isDiscoveryReq e = false) :
    StepOKAt (tell e) s :=
  ⟨SameDiscovery.refl _, [e], rfl, fun e' h => by
    rcases List.mem_singleton.mp h with rfl; exact he⟩

theorem stepOK_modifyDev (f : Device → Device) (s : St)
    (h : SameDiscovery s.dev (f s.dev)) : StepOKAt (modifyDev f) s :=
  ⟨h, [], by simp, fun _ h => absurd h (List.not_mem_nil _)⟩

theorem lookupKey_setKey {α : Type} (m : List (String × α)) (k k' : String)
    (v : α) :
    lookupKey (setKey m k v) k' = if k = k' then some v else lookupKey m k' := by
  induction m with
  | nil => by_cases h : k = k' <;> simp [setKey, h]
  | cons p rest ih =>
      obtain ⟨pk, pv⟩ := p
      by_cases h1 : pk = k
      · subst h1
        by_cases h2 : pk = k'
        · subst h2
          simp [setKey]
        · simp [setKey, h2]
      · by_cases h2 : pk = k'
        · subst h2
          have hkk : ¬ k = pk := fun h => h1 h.symm
          simp [setKey, h1, hkk]
        · simp [setKey, h1, h2, ih]

theorem stepOK_fetch_netusb (env : Env) (s : St) :
    StepOKAt (_fetch_netusb env) s := by
  unfold _fetch_netusb
  refine step_bind _ _ _ (stepOK_tell _ _ rfl) ?_
  intro a _
  exact stepOK_modifyDev _ _
    ⟨rfl, rfl, rfl, rfl, rfl, rfl, rfl, rfl, rfl, rfl, rfl, rfl, rfl, rfl, rfl,
     rfl, rfl, fun _ => rfl⟩

theorem stepOK_fetch_netusb_presets (env : Env) (s : St) :
    StepOKAt (_fetch_netusb_presets env) s := by
  unfold _fetch_netusb_presets
  refine step_bind _ _ _ (stepOK_tell _ _ rfl) ?_
  intro a _
  exact stepOK_modifyDev _ _
    ⟨rfl, rfl, rfl, rfl, rfl, rfl, rfl, rfl, rfl, rfl, rfl, rfl, rfl, rfl, rfl,
     rfl, rfl, fun _ => rfl⟩

theorem stepOK_fetch_tuner (env : Env) (s : St) :
    StepOKAt (_fetch_tuner env) s := by
  unfold _fetch_tuner
  refine step_bind _ _ _ (stepOK_tell _ _ rfl) ?_
  intro a _
  exact stepOK_modifyDev _ _
    ⟨rfl, rfl, rfl, rfl, rfl, rfl, rfl, rfl, rfl, rfl, rfl, rfl, rfl, rfl, rfl,
     rfl, rfl, fun _ => rfl⟩

theorem stepOK_fetch_clock (env : Env) (s : St) :
    StepOKAt (_fetch_clock_data env) s := by
  unfold _fetch_clock_data
  refine step_bind _ _ _ (stepOK_tell _ _ rfl) ?_
  intro a _
  exact stepOK_modifyDev _ _
    ⟨rfl, rfl, rfl, rfl, rfl, rfl, rfl, rfl, rfl, rfl, rfl, rfl, rfl, rfl, rfl,
     rfl, rfl, fun _ => rfl⟩

theorem stepOK_fetch_func_status (env : Env) (s : St) :
    StepOKAt (_fetch_func_status env) s := by
  unfold _fetch_func_status
  refine step_bind _ _ _ (stepOK_tell _ _ rfl) ?_
  intro a _
  refine stepOK_modifyDev _ _ ?_
  generalize (tell Effect.getFuncStatus s).2.dev = d
  dsimp only
  unfold SameDiscovery
  refine ⟨?_, ?_, ?_, ?_, ?_, ?_, ?_, ?_, ?_, ?_, ?_, ?_, ?_, ?_, ?_, ?_, ?_, ?_⟩
  all_goals intros
  all_goals (repeat' split) <;> rfl

theorem stepOK_fetch_distribution (env : Env) (s : St) :
    StepOKAt (_fetch_distribution_data env) s := by
  constructor
  · have hdev : ((_fetch_distribution_data env) s).2.dev = distDataAfter env s.dev := by
      simp only [_fetch_distribution_data, bind_run, tell_run, modifyDev_run,
        getDev_run]
      split
      · exact (runGroupCallbacks_dev env _ _)
      · rfl
    rw [hdev]
    exact ⟨rfl, rfl, rfl, rfl, rfl, rfl, rfl, rfl, rfl, rfl, rfl, rfl, rfl, rfl,
      rfl, rfl, rfl, fun _ => rfl⟩
  · simp only [_fetch_distribution_data, bind_run, tell_run, modifyDev_run,
      getDev_run]
    by_cases hlock : (distDataAfter env s.dev).data.group_update_lock = true
    · refine ⟨[.getDistributionInfo], ?_, ?_⟩
      · simp [hlock]
      · intro e he
        rcases List.mem_singleton.mp he with rfl
        rfl
    · rw [Bool.not_eq_true] at hlock
      simp only [hlock, Bool.not_false, if_true]
      obtain ⟨pre, hlog⟩ := runGroupCallbacks_log env
        (distDataAfter env s.dev).group_update_callbacks_
        { dev := distDataAfter env s.dev, log := s.log ++ [.getDistributionInfo] }
      refine ⟨.getDistributionInfo ::
        pre.map (fun cb => .groupCb cb (distDataAfter env s.dev).group_reduce_by_source),
        ?_, ?_⟩
      · rw [hlog]
        simp
      · intro e he
        rcases List.mem_cons.mp he with rfl | h
        · rfl
        · obtain ⟨cb, _, hcb⟩ := List.mem_map.mp h
          rw [← hcb]
          rfl

/-- The reduce-hint flag and the input field are not discovery data. -/
theorem sd_update_input_zone (d : Device) (zone_id : String)
    (inp : Option String) :
    SameDiscovery d { d with data := { d.data with
      zones := updateKey d.data.zones zone_id
        (fun zz => { zz with input := inp }) } } := by
  refine ⟨rfl, rfl, rfl, rfl, rfl, rfl, rfl, rfl, rfl, rfl, rfl, rfl, rfl, rfl,
    rfl, rfl, rfl, fun k => ?_⟩
  show (lookupKey (updateKey d.data.zones zone_id _) k).map zoneDiscovery = _
  rw [lookupKey_updateKey]
  split
  · cases lookupKey d.data.zones k <;> rfl
  · rfl

/-- The reduce-hint flag is not discovery data. -/
theorem sd_flag (d : Device) (b : Bool) :
    SameDiscovery d { d with group_reduce_by_source := b } :=
  ⟨rfl, rfl, rfl, rfl, rfl, rfl, rfl, rfl, rfl, rfl, rfl, rfl, rfl, rfl, rfl,
   rfl, rfl, fun _ => rfl⟩

/-- The callback section of `_update_input` only runs observers and
resets the flag: discovery data is untouched, the log gains only
`groupCb` entries. -/
theorem stepOK_cb_section (env : Env) (s : St) :
    StepOKAt (tryFinally
      (do
        let dev ← getDev
        runGroupCallbacks env dev.group_update_callbacks_)
      (modifyDev fun d => { d with group_reduce_by_source := false })) s := by
  constructor
  · have hdev : ((tryFinally
        (do
          let dev ← getDev
          runGroupCallbacks env dev.group_update_callbacks_)
        (modifyDev fun d => { d with group_reduce_by_source := false })) s).2.dev =
        { s.dev with group_reduce_by_source := false } := by
      simp only [tryFinally, bind_run, getDev_run, modifyDev_run]
      simp [runGroupCallbacks_dev]
    rw [hdev]
    exact sd_flag s.dev false
  · obtain ⟨pre, hlog⟩ := runGroupCallbacks_log env s.dev.group_update_callbacks_ s
    refine ⟨pre.map (fun cb => .groupCb cb s.dev.group_reduce_by_source), ?_, ?_⟩
    · simp only [tryFinally, bind_run, getDev_run, modifyDev_run]
      rw [hlog]
    · intro e he
      obtain ⟨cb, _, hcb⟩ := List.mem_map.mp he
      rw [← hcb]
      rfl

/-- `_update_input` on an existing zone preserves discovery data and
logs only callback invocations. -/
theorem stepOK_update_input (env : Env) (zone_id : String) (inp : Option String)
    (s : St) (hk : (lookupKey s.dev.data.zones zone_id).isSome = true) :
    StepOKAt (_update_input env zone_id inp) s := by
  obtain ⟨z, hz⟩ := Option.isSome_iff_exists.mp hk
  unfold _update_input
  refine step_bind _ _ _ (stepOK_getDev s) ?_
  intro a ha
  dsimp only [getDev_run] at ha ⊢
  injection ha with ha
  subst ha
  rw [hz]
  show StepOKAt (_ >>= _) s
  refine step_bind _ _ _ (stepOK_modifyDev _ _ ?_) ?_
  · exact sd_update_input_zone s.dev zone_id inp
  · intro a2 _
    dsimp only [modifyZone, modifyData, modifyDev_run]
    split
    · -- trigger branch
      refine step_bind _ _ _ (stepOK_getDev _) ?_
      intro a3 ha3
      dsimp only [getDev_run] at ha3 ⊢
      injection ha3 with ha3
      subst ha3
      rw [show lookupKey
          (updateKey s.dev.data.zones zone_id (fun zz => { zz with input := inp }))
          zone_id = some { z with input := inp } from by
        rw [lookupKey_updateKey]; simp [hz]]
      dsimp only
      split
      · refine step_bind _ _ _ (stepOK_modifyDev _ _ (sd_flag _ true)) ?_
        intro a4 _
        exact stepOK_cb_section env _
      · exact stepOK_cb_section env _
    · exact stepOK_pure _ _

theorem stepOK_throwErr {α : Type} (e : Err) (s : St) :
    StepOKAt (throwErr e : M α) s :=
  ⟨SameDiscovery.refl _, [], by simp, fun _ h => absurd h (List.not_mem_nil _)⟩

/-- `step_bind` with the continuation stated over an abstract
intermediate state carrying its relation to the start state. -/
theorem step_bind_track {α β : Type} (x : M α) (f : α → M β) (s : St)
    (hx : StepOKAt x s)
    (hf : ∀ a s1, SameDiscovery s.dev s1.dev → x s = (.ok a, s1) →
      StepOKAt (f a) s1) :
    StepOKAt (x >>= f) s := by
  refine step_bind x f s hx ?_
  intro a ha
  refine hf a (x s).2 hx.1 ?_
  rw [← ha]

/-- `_fetch_zone` on a zone that is already present refreshes only
live state: the discovery part of every zone survives and the log
gains no discovery request. -/
theorem stepOK_fetch_zone (env : Env) (zone_id : String) (s : St)
    (hk : (lookupKey s.dev.data.zones zone_id).isSome = true) :
    StepOKAt (_fetch_zone env zone_id) s := by
  obtain ⟨z, hz⟩ := Option.isSome_iff_exists.mp hk
  unfold _fetch_zone
  refine step_bind_track _ _ _ (stepOK_tell _ _ rfl) ?_
  intro a1 s1 _ hxs1
  have hs1 : s1 = { s with log := s.log ++ [Effect.getZoneStatus zone_id] } := by
    have := congrArg (fun p => p.2) hxs1
    dsimp only [tell_run] at this
    rw [← this]
  subst hs1
  refine step_bind_track _ _ _ (stepOK_modifyDev _ _ ?_) ?_
  · refine ⟨rfl, rfl, rfl, rfl, rfl, rfl, rfl, rfl, rfl, rfl, rfl, rfl, rfl,
      rfl, rfl, rfl, rfl, fun k => ?_⟩
    show (lookupKey (setKey _ zone_id _) k).map zoneDiscovery = _
    rw [lookupKey_setKey]
    split
    · rename_i hkk
      subst hkk
      show some (zoneDiscovery _) = (lookupKey s.dev.data.zones zone_id).map _
      rw [hz]
      rfl
    · rfl
  · intro a2 s2 hsd2 hxs2
    apply stepOK_update_input
    have hzfield := congrArg (fun p => p.2.dev.data.zones) hxs2
    dsimp only [modifyDev_run] at hzfield
    rw [← hzfield]
    simp [lookupKey_setKey]

/-- The per-zone loop of `fetch` preserves discovery data when every
listed zone already has an entry. -/
theorem stepOK_fetch_zones_loop (env : Env) (zs : List String) : ∀ s : St,
    (∀ z ∈ zs, (lookupKey s.dev.data.zones z).isSome = true) →
    StepOKAt (fetchZonesLoop env zs) s := by
  induction zs with
  | nil =>
      intro s _
      exact stepOK_pure () s
  | cons z rest ih =>
      intro s hkeys
      show StepOKAt (_fetch_zone env z >>= fun _ => fetchZonesLoop env rest) s
      have hz : StepOKAt (_fetch_zone env z) s :=
        stepOK_fetch_zone env z s (hkeys z (by simp))
      refine step_bind_track _ _ _ hz ?_
      intro a s1 hsd _
      refine ih s1 ?_
      intro z' hz'
      rw [SameDiscovery.isSome_zone hsd]
      exact hkeys z' (List.mem_cons_of_mem z hz')

/-- The tail of `fetch` from the zone loop on preserves discovery data
when every listed zone is present. -/
theorem stepOK_fetchTail2 (env : Env) (s : St)
    (hz : ∀ z ∈ s.dev.zone_ids_,
      (lookupKey s.dev.data.zones z).isSome = true) :
    StepOKAt (fetchTail2 env) s := by
  unfold fetchTail2
  refine step_bind _ _ _ (stepOK_getDev s) ?_
  intro a1 ha1
  dsimp only [getDev_run] at ha1 ⊢
  injection ha1 with ha1
  subst ha1
  refine step_bind_track _ _ _ (stepOK_fetch_zones_loop env s.dev.zone_ids_ s hz) ?_
  intro a2 s2 hsd2 _
  refine step_bind _ _ _ (stepOK_getDev s2) ?_
  intro a3 ha3
  dsimp only [getDev_run] at ha3 ⊢
  injection ha3 with ha3
  subst ha3
  refine step_bind_track _ _ _ ?_ ?_
  · split
    · split
      · split
        · exact stepOK_modifyDev _ _
            ⟨rfl, rfl, rfl, rfl, rfl, rfl, rfl, rfl, rfl, rfl, rfl, rfl, rfl,
             rfl, rfl, rfl, rfl, fun _ => rfl⟩
        · exact stepOK_throwErr _ _
      · exact stepOK_pure _ _
    · exact stepOK_pure _ _
  intro a4 s4 _ _
  exact stepOK_fetch_func_status env s4

/-- The tail of `fetch` from the distribution sub-fetch on preserves
discovery data when every listed zone is present. -/
theorem stepOK_fetchTail1 (env : Env) (s : St)
    (hz : ∀ z ∈ s.dev.zone_ids_,
      (lookupKey s.dev.data.zones z).isSome = true) :
    StepOKAt (fetchTail1 env) s := by
  unfold fetchTail1
  refine step_bind_track _ _ _ (stepOK_fetch_distribution env _) ?_
  intro a1 s1 hsd1 _
  have hz1 : ∀ z ∈ s1.dev.zone_ids_,
      (lookupKey s1.dev.data.zones z).isSome = true := by
    intro z hzz
    rw [hsd1.2.1] at hzz
    rw [SameDiscovery.isSome_zone hsd1]
    exact hz z hzz
  refine step_bind _ _ _ (stepOK_getDev s1) ?_
  intro a2 ha2
  dsimp only [getDev_run] at ha2 ⊢
  injection ha2 with ha2
  subst ha2
  by_cases hc : (s1.dev.features.contains DeviceFeature.ALARM_ONEDAY ||
      s1.dev.features.contains DeviceFeature.ALARM_WEEKLY) = true
  · rw [if_pos hc]
    refine step_bind_track _ _ _ (stepOK_fetch_clock env _) ?_
    intro a3 s3 hsd3 _
    refine stepOK_fetchTail2 env s3 ?_
    intro z hzz
    rw [hsd3.2.1] at hzz
    rw [SameDiscovery.isSome_zone hsd3]
    exact hz1 z hzz
  · rw [if_neg hc]
    refine step_bind _ _ _ (stepOK_pure _ _) ?_
    intro a3 _
    exact stepOK_fetchTail2 env s1 hz1

set_option maxHeartbeats 1600000 in
/-- C8: `fetch` is idempotent over the cold discovery data.  Once the
network-status, device-info and feature-list caches are populated (the
state after any successful first `fetch`, with every listed zone
present), a repeated `fetch` never re-issues the three guarded
discovery requests — every effect it appends to the log is a
non-discovery request — and every once-populated discovery field (the
caches, the device-level fields written under the guards, and the
discovery part of every zone) keeps its value, on the success and the
error path alike. -/
theorem fetch_discovery_idempotent (env : Env) (s : St)
    (hdone : discoveryDone s.dev = true)
    (hzones : ∀ z ∈ s.dev.zone_ids_,
      (lookupKey s.dev.data.zones z).isSome = true) :
    StepOKAt (fetch env) s := by
  have hns : s.dev.network_status_.isNone = false := by
    unfold discoveryDone at hdone
    cases h : s.dev.network_status_ with
    | none => rw [h] at hdone; simp at hdone
    | some v => rfl
  have hdi : s.dev.device_info_.isNone = false := by
    unfold discoveryDone at hdone
    cases h : s.dev.device_info_ with
    | none => rw [h] at hdone; simp at hdone
    | some v => rfl
  have hft : s.dev.features_.isNone = false := by
    unfold discoveryDone at hdone
    cases h : s.dev.features_ with
    | none => rw [h] at hdone; simp at hdone
    | some v => rfl
  unfold fetch
  refine step_bind _ _ _ (stepOK_getDev s) ?_
  intro a1 ha1
  dsimp only [getDev_run] at ha1 ⊢
  injection ha1 with ha1
  subst ha1
  rw [hns]
  refine step_bind _ _ _ (stepOK_pure PUnit.unit s) ?_
  intro a2 _
  dsimp only [pure_run]
  refine step_bind _ _ _ (stepOK_getDev s) ?_
  intro a3 ha3
  dsimp only [getDev_run] at ha3 ⊢
  injection ha3 with ha3
  subst ha3
  rw [hdi]
  refine step_bind _ _ _ (stepOK_pure PUnit.unit s) ?_
  intro a3b _
  dsimp only [pure_run]
  refine step_bind_track _ _ _ (stepOK_tell _ _ rfl) ?_
  intro a4 s4 hsd4 _
  refine step_bind_track _ _ _
    (stepOK_modifyDev _ _
      ⟨rfl, rfl, rfl, rfl, rfl, rfl, rfl, rfl, rfl, rfl, rfl, rfl, rfl, rfl,
       rfl, rfl, rfl, fun _ => rfl⟩) ?_
  intro a5 s5 hsd5 _
  have hsdB : SameDiscovery s.dev s5.dev := hsd4.trans hsd5
  refine step_bind _ _ _ (stepOK_getDev s5) ?_
  intro a6 ha6
  dsimp only [getDev_run] at ha6 ⊢
  injection ha6 with ha6
  subst ha6
  rw [show s5.dev.features_.isNone = false from by rw [hsdB.2.2.2.2.1]; exact hft]
  refine step_bind _ _ _ (stepOK_pure PUnit.unit s5) ?_
  intro a6b _
  dsimp only [pure_run]
  refine step_bind_track _ _ _
    (stepOK_modifyDev _ _
      ⟨rfl, rfl, rfl, rfl, rfl, rfl, rfl, rfl, rfl, rfl, rfl, rfl, rfl, rfl,
       rfl, rfl, rfl, fun _ => rfl⟩) ?_
  intro a7 s7 hsd7 _
  have hsdC : SameDiscovery s.dev s7.dev := hsdB.trans hsd7
  refine step_bind _ _ _ (stepOK_getDev s7) ?_
  intro a8 ha8
  dsimp only [getDev_run] at ha8 ⊢
  injection ha8 with ha8
  subst ha8
  refine step_bind_track _ _ _ ?_ ?_
  · split
    · split
      · exact step_bind _ _ _ (stepOK_fetch_netusb env _)
          (fun a _ => stepOK_fetch_netusb_presets env _)
      · exact stepOK_pure _ _
    · exact stepOK_pure _ _
  intro a9 s9 hsd9 _
  have hsdD : SameDiscovery s.dev s9.dev := hsdC.trans hsd9
  have htail : ∀ s' : St, SameDiscovery s.dev s'.dev →
      StepOKAt (fetchTail1 env) s' := by
    intro s' hsd'
    refine stepOK_fetchTail1 env s' ?_
    intro z hzz
    rw [hsd'.2.1] at hzz
    rw [SameDiscovery.isSome_zone hsd']
    exact hzones z hzz
  by_cases hc : (s7.dev.features_.getD {}).tuner = true
  · rw [if_pos hc]
    refine step_bind_track _ _ _ (stepOK_fetch_tuner env _) ?_
    intro a10 s10 hsd10 _
    exact htail s10 (hsdD.trans hsd10)
  · rw [if_neg hc]
    refine step_bind _ _ _ (stepOK_pure _ _) ?_
    intro a10 _
    exact htail s9 hsdD

/-- Witness for `fetch_discovery_idempotent` at a concrete warm device
and environment. -/
theorem fetch_discovery_idempotent_witness :
    discoveryDone c8Dev = true ∧ StepOKAt (fetch {}) { dev := c8Dev, log := [] } :=
  ⟨rfl, fetch_discovery_idempotent {} { dev := c8Dev, log := [] } rfl
    (by intro z hz; simp [c8Dev] at hz)⟩

end AioMusiccast
